import Mathlib

/-!
Verification development for the Promidata synchronization engine
(backend/src/api/promidata-sync/services/promidata-sync.ts).

The TypeScript service is shallowly embedded below.  JavaScript strings are
modelled as Lean strings operated on through their character lists; JavaScript
truthiness for strings is modelled explicitly (absent = none, present-but-empty
is falsy).  Regex-based text replacement is modelled by fuel-indexed scanners
(fuel = input length suffices because every step consumes at least one
character).  Timestamps (new Date().toISOString()) are modelled as natural
numbers supplied per run.  The Strapi entity store is modelled as explicit
lists of rows threaded through the functions; entityService.update bumps a
row's updatedAt field, as Strapi does on every write.
-/

namespace Promidata

/-! ## JavaScript string basics -/

/-- Truthiness of an optional JS string: undefined/null and "" are falsy. -/
def truthy : Option String → Bool
  | some s => !(s == "")
  | none => false

/-- JS `a || b` on optional strings: returns a when truthy, else b. -/
def jsOr (a b : Option String) : Option String :=
  if truthy a then a else b

/-- JS `a || b` where b is a plain (string) default. -/
def jsOrD (a : Option String) (b : String) : String :=
  if truthy a then a.getD b else b

/-- JS `a || b` on an optional boolean with boolean default
(used for `childProductData.IsActive || true`). -/
def jsOrB (a : Option Bool) (b : Bool) : Bool :=
  match a with
  | some true => true
  | _ => b

/-- Whitespace class of JavaScript `\s` (also used by String.prototype.trim). -/
def isJsWs (c : Char) : Bool :=
  c == ' ' || c == '\t' || c == '\n' || c == '\r' ||
  c == Char.ofNat 11 || c == Char.ofNat 12 || c == Char.ofNat 0xa0 ||
  c == Char.ofNat 0x1680 ||
  (0x2000 ≤ c.toNat && c.toNat ≤ 0x200a) ||
  c == Char.ofNat 0x2028 || c == Char.ofNat 0x2029 ||
  c == Char.ofNat 0x202f || c == Char.ofNat 0x205f ||
  c == Char.ofNat 0x3000 || c == Char.ofNat 0xfeff

/-- Left trim on characters. -/
def trimL (l : List Char) : List Char := l.dropWhile isJsWs

/-- Right trim on characters (drop trailing whitespace). -/
def trimR (l : List Char) : List Char := ((l.reverse).dropWhile isJsWs).reverse

/-- JS String.prototype.trim modelled on characters: right trim, then left. -/
def trimChars (l : List Char) : List Char := trimL (trimR l)

/-- JS String.prototype.trim. -/
def jsTrim (s : String) : String := String.mk (trimChars s.data)

/-- Split a character list at every occurrence of a separator character,
keeping empty segments (JS String.prototype.split with one-char separator). -/
def splitOnChar (c : Char) (l : List Char) : List (List Char) :=
  l.foldr
    (fun ch acc =>
      match acc with
      | [] => [[ch]]
      | a :: as => if ch == c then [] :: a :: as else (ch :: a) :: as)
    [[]]

/-- Does pat occur as a contiguous segment of l (JS String.prototype.includes)? -/
def hasSeg (pat : List Char) : List Char → Bool
  | [] => pat.isEmpty
  | c :: cs => pat.isPrefixOf (c :: cs) || hasSeg pat cs

/-- String-level contiguous containment. -/
def sHasSeg (pat s : String) : Bool := hasSeg pat.data s.data

/-- ASCII-style lowercasing of a string (JS toLowerCase on the characters the
service actually inspects). -/
def lowerStr (s : String) : String := String.mk (s.data.map Char.toLower)

/-- Does s start with pat (JS String.prototype.startsWith)? -/
def sStarts (pat s : String) : Bool := pat.data.isPrefixOf s.data

/-- Does s end with pat (JS regex `pat$` for a literal pat)? -/
def sEnds (pat s : String) : Bool := pat.data.reverse.isPrefixOf s.data.reverse

/-! ## cleanHtmlFromDescription (source lines 127-154)

Each `.replace(regex, ...)` stage is modelled by a scanner over the character
list.  Scanners that consume more than one character per step take fuel; fuel
equal to the input length is always sufficient since every step consumes at
least one character, and the fuel-exhausted branch returns the remaining
input unchanged. -/

/-- Match `<br\s*\/?>` (case-insensitive) at the head; return the rest. -/
def brMatch : List Char → Option (List Char)
  | '<' :: c1 :: c2 :: rest =>
    if (c1 == 'b' || c1 == 'B') && (c2 == 'r' || c2 == 'R') then
      match rest.dropWhile isJsWs with
      | '/' :: '>' :: r => some r
      | '>' :: r => some r
      | _ => none
    else none
  | _ => none

/-- Stage 1: `.replace(/<br\s*\/?>/gi, '\n')`. -/
def scanBr : Nat → List Char → List Char
  | 0, l => l
  | _ + 1, [] => []
  | n + 1, c :: cs =>
    match brMatch (c :: cs) with
    | some rest => '\n' :: scanBr n rest
    | none => c :: scanBr n cs

/-- Index of the last newline in l, assuming one occurs. -/
def lastNlPos (l : List Char) : Nat :=
  match l.reverse.findIdx? (fun c => c == '\n') with
  | some k => l.length - 1 - k
  | none => 0

/-- Stage 2: `.replace(/\n\s*\n/g, '\n\n')` — a newline, greedy whitespace,
then a newline; the greedy match ends at the last newline inside the maximal
whitespace run following the first newline. -/
def scanNlWsNl : Nat → List Char → List Char
  | 0, l => l
  | _ + 1, [] => []
  | n + 1, '\n' :: cs =>
    let run := cs.takeWhile isJsWs
    if run.contains '\n' then
      '\n' :: '\n' :: scanNlWsNl n (cs.drop (lastNlPos run + 1))
    else '\n' :: scanNlWsNl n cs
  | n + 1, c :: cs => c :: scanNlWsNl n cs

/-- Stage 3: `.replace(/<[^>]*>/g, '')` — drop from `<` through the first `>`;
a `<` with no closing `>` does not match. -/
def scanTags : Nat → List Char → List Char
  | 0, l => l
  | _ + 1, [] => []
  | n + 1, '<' :: cs =>
    if cs.contains '>' then
      scanTags n ((cs.dropWhile (fun c => !(c == '>'))).drop 1)
    else '<' :: scanTags n cs
  | n + 1, c :: cs => c :: scanTags n cs

/-- Global replacement of a literal pattern (stages 4a-4f, entity decoding). -/
def scanLit (pat rep : List Char) : Nat → List Char → List Char
  | 0, l => l
  | _ + 1, [] => []
  | n + 1, c :: cs =>
    if pat.isPrefixOf (c :: cs) then rep ++ scanLit pat rep n ((c :: cs).drop pat.length)
    else c :: scanLit pat rep n cs

def replaceAllLit (pat rep : String) (l : List Char) : List Char :=
  scanLit pat.data rep.data l.length l

/-- Space or tab (the `[ \t]` class). -/
def isSpTab (c : Char) : Bool := c == ' ' || c == '\t'

/-- Stage 5: `.replace(/[ \t]+/g, ' ')`. -/
def scanSpTab : Nat → List Char → List Char
  | 0, l => l
  | _ + 1, [] => []
  | n + 1, c :: cs =>
    if isSpTab c then ' ' :: scanSpTab n (cs.dropWhile isSpTab)
    else c :: scanSpTab n cs

/-- Stage 6: `.replace(/\n[ \t]+/g, '\n')`. -/
def scanNlSp : Nat → List Char → List Char
  | 0, l => l
  | _ + 1, [] => []
  | n + 1, '\n' :: cs =>
    let run := cs.takeWhile isSpTab
    if run.isEmpty then '\n' :: scanNlSp n cs
    else '\n' :: scanNlSp n (cs.drop run.length)
  | n + 1, c :: cs => c :: scanNlSp n cs

/-- Stage 7: `.replace(/[ \t]+\n/g, '\n')` — a space/tab run matches only when
immediately followed by a newline. -/
def scanSpNl : Nat → List Char → List Char
  | 0, l => l
  | _ + 1, [] => []
  | n + 1, c :: cs =>
    if isSpTab c then
      let run := (c :: cs).takeWhile isSpTab
      match (c :: cs).drop run.length with
      | '\n' :: rest => '\n' :: scanSpNl n rest
      | rest => run ++ scanSpNl n rest
    else c :: scanSpNl n cs

/-- Stage 8: `.replace(/\n{3,}/g, '\n\n')`, written as a structural scan that
tracks the length of the pending newline run (a maximal run of three or more
newlines is emitted as exactly two). -/
def nlBlock (n : Nat) : List Char :=
  List.replicate (if 3 ≤ n then 2 else n) '\n'

def squeezeGo : Nat → List Char → List Char
  | pending, [] => nlBlock pending
  | pending, c :: cs =>
    if c == '\n' then squeezeGo (pending + 1) cs
    else nlBlock pending ++ c :: squeezeGo 0 cs

def squeezeNl (l : List Char) : List Char := squeezeGo 0 l

/-- cleanHtmlFromDescription (source lines 127-154): the nine replace stages
followed by trim, guarded by the falsy-input check. -/
def cleanHtmlFromDescription (s : String) : String :=
  if s == "" then ""
  else
    let l1 := scanBr s.data.length s.data
    let l2 := scanNlWsNl l1.length l1
    let l3 := scanTags l2.length l2
    let l4 := replaceAllLit "&lt;" "<" l3
    let l5 := replaceAllLit "&gt;" ">" l4
    let l6 := replaceAllLit "&amp;" "&" l5
    let l7 := replaceAllLit "&quot;" "\"" l6
    let l8 := replaceAllLit "&#39;" "\x27" l7
    let l9 := replaceAllLit "&nbsp;" " " l8
    let l10 := scanSpTab l9.length l9
    let l11 := scanNlSp l10.length l10
    let l12 := scanSpNl l11.length l11
    let l13 := squeezeNl l12
    String.mk (trimChars l13)

/-! ### Facts about the final stages -/

/-- Detects three consecutive newlines anywhere in the list. -/
def hasTripleNl : List Char → Bool
  | a :: b :: c :: rest =>
    (a == '\n' && b == '\n' && c == '\n') || hasTripleNl (b :: c :: rest)
  | _ => false

theorem hasTripleNl_cons_of_ne (c : Char) (l : List Char) (hc : ¬ c = '\n') :
    hasTripleNl (c :: l) = hasTripleNl l := by
  match l with
  | [] => simp [hasTripleNl]
  | [x] => simp [hasTripleNl]
  | x :: y :: t =>
    simp only [hasTripleNl]
    have : (c == '\n') = false := by simpa using hc
    simp [this]

theorem hasTripleNl_nl_cons (l : List Char) (hh : l.head? ≠ some '\n')
    (hl : hasTripleNl l = false) : hasTripleNl ('\n' :: l) = false := by
  match l with
  | [] => simp [hasTripleNl]
  | [x] => simp [hasTripleNl]
  | x :: y :: t =>
    have hx : ¬ x = '\n' := by
      intro h; exact hh (by simp [h])
    simp only [hasTripleNl] at hl ⊢
    have : (x == '\n') = false := by simpa using hx
    simp only [this, Bool.and_false, Bool.false_and, Bool.false_or] at hl ⊢
    exact hl

theorem hasTripleNl_nlBlock_append (n : Nat) (l : List Char)
    (hh : l.head? ≠ some '\n') (hl : hasTripleNl l = false) :
    hasTripleNl (nlBlock n ++ l) = false := by
  have h1 : hasTripleNl ('\n' :: l) = false := hasTripleNl_nl_cons l hh hl
  have h2 : hasTripleNl ('\n' :: '\n' :: l) = false := by
    match l with
    | [] => simp [hasTripleNl]
    | x :: t =>
      have hx : ¬ x = '\n' := by intro h; exact hh (by simp [h])
      have hxb : (x == '\n') = false := by simpa using hx
      simp only [hasTripleNl, hxb, Bool.and_false, Bool.false_or] at h1 ⊢
      simpa [hasTripleNl, hxb] using h1
  unfold nlBlock
  by_cases h3 : 3 ≤ n
  · simpa [h3, List.replicate] using h2
  · interval_cases n
    · simpa using hl
    · simpa [List.replicate] using h1
    · simpa [List.replicate] using h2

theorem hasTripleNl_nlBlock (n : Nat) : hasTripleNl (nlBlock n) = false := by
  have := hasTripleNl_nlBlock_append n [] (by simp) (by simp [hasTripleNl])
  simpa using this

theorem squeezeGo_head_ne (c : Char) (cs : List Char) (hc : ¬ c = '\n') (p : Nat) :
    ∃ t, squeezeGo p (c :: cs) = nlBlock p ++ c :: t := by
  have hcb : (c == '\n') = false := by simpa using hc
  exact ⟨squeezeGo 0 cs, by simp [squeezeGo, hcb]⟩

theorem hasTripleNl_squeezeGo (l : List Char) :
    ∀ p, hasTripleNl (squeezeGo p l) = false := by
  induction l with
  | nil => intro p; simpa [squeezeGo] using hasTripleNl_nlBlock p
  | cons c cs ih =>
    intro p
    by_cases hc : c = '\n'
    · subst hc
      simp only [squeezeGo, beq_self_eq_true, if_true]
      exact ih (p + 1)
    · have hcb : (c == '\n') = false := by simpa using hc
      simp only [squeezeGo, hcb, if_false]
      refine hasTripleNl_nlBlock_append p (c :: squeezeGo 0 cs) (by simpa using hc) ?_
      rw [hasTripleNl_cons_of_ne c _ hc]
      exact ih 0

theorem hasTripleNl_squeezeNl (l : List Char) : hasTripleNl (squeezeNl l) = false :=
  hasTripleNl_squeezeGo l 0

/-- hasTripleNl as an occurrence statement. -/
theorem hasTripleNl_iff (l : List Char) :
    hasTripleNl l = true ↔ ∃ p q, l = p ++ '\n' :: '\n' :: '\n' :: q := by
  constructor
  · intro h
    induction l with
    | nil => simp [hasTripleNl] at h
    | cons a t ih =>
      match t, h with
      | b :: c :: rest, h =>
        simp only [hasTripleNl, Bool.or_eq_true, Bool.and_eq_true, beq_iff_eq] at h
        rcases h with ⟨⟨ha, hb⟩, hc⟩ | h2
        · exact ⟨[], rest, by simp [ha, hb, hc]⟩
        · rcases ih h2 with ⟨p, q, hpq⟩
          exact ⟨a :: p, q, by simp [hpq]⟩
  · rintro ⟨p, q, rfl⟩
    induction p with
    | nil => simp [hasTripleNl]
    | cons a p ih =>
      match hmatch : p ++ '\n' :: '\n' :: '\n' :: q with
      | b :: c :: rest =>
        have : hasTripleNl (p ++ '\n' :: '\n' :: '\n' :: q) = true := ih
        simp only [List.cons_append, hmatch, hasTripleNl, Bool.or_eq_true] at this ⊢
        exact Or.inr this
      | [] => exact absurd hmatch (by cases p <;> simp)
      | [b] => exact absurd hmatch (by cases p <;> simp [List.append_eq_cons_iff])

theorem hasTripleNl_of_infix {l t : List Char} (hinf : t <:+: l)
    (ht : hasTripleNl t = true) : hasTripleNl l = true := by
  rcases hinf with ⟨u, v, rfl⟩
  rcases (hasTripleNl_iff t).mp ht with ⟨p, q, rfl⟩
  exact (hasTripleNl_iff _).mpr ⟨u ++ p, q ++ v, by simp⟩

theorem trimChars_infixFact (l : List Char) : trimChars l <:+: l := by
  unfold trimChars trimL trimR
  have h1 : (l.reverse.dropWhile isJsWs).reverse <+: l := by
    have h0 : l.reverse.dropWhile isJsWs <:+ l.reverse := List.dropWhile_suffix isJsWs
    have h0r := List.reverse_prefix.mpr h0
    simpa using h0r
  have h2 : ((l.reverse.dropWhile isJsWs).reverse.dropWhile isJsWs) <:+
      (l.reverse.dropWhile isJsWs).reverse :=
    List.dropWhile_suffix isJsWs
  exact (h2.isInfix).trans h1.isInfix

theorem head_dropWhile_not (p : Char → Bool) (l : List Char) :
    ∀ c, (l.dropWhile p).head? = some c → p c = false := by
  induction l with
  | nil => intro c h; simp [List.dropWhile] at h
  | cons a t ih =>
    intro c h
    by_cases hp : p a
    · rw [List.dropWhile_cons_of_pos hp] at h; exact ih c h
    · rw [List.dropWhile_cons_of_neg hp] at h
      simp at h
      rw [← h]
      simpa using hp

theorem getLast_dropWhile (p : Char → Bool) (l : List Char)
    (h : l.dropWhile p ≠ []) : (l.dropWhile p).getLast? = l.getLast? := by
  induction l with
  | nil => simp [List.dropWhile] at h
  | cons a t ih =>
    by_cases hp : p a
    · rw [List.dropWhile_cons_of_pos hp] at h ⊢
      cases t with
      | nil => simp [List.dropWhile] at h
      | cons b u => rw [ih h, List.getLast?_cons_cons]
    · rw [List.dropWhile_cons_of_neg hp]

/-- The result of trimChars has no leading or trailing JS whitespace. -/
theorem trimChars_ends (l : List Char) :
    (∀ c, (trimChars l).head? = some c → isJsWs c = false) ∧
    (∀ c, (trimChars l).getLast? = some c → isJsWs c = false) := by
  constructor
  · intro c h
    exact head_dropWhile_not isJsWs _ c h
  · intro c h
    unfold trimChars trimL trimR at h
    have hne : ((l.reverse.dropWhile isJsWs).reverse.dropWhile isJsWs) ≠ [] := by
      intro he
      rw [he] at h; simp at h
    rw [getLast_dropWhile isJsWs _ hne] at h
    rw [List.getLast?_reverse] at h
    exact head_dropWhile_not isJsWs _ c h

theorem clean_shape (s : String) :
    (cleanHtmlFromDescription s).data = [] ∨
    ∃ x, (cleanHtmlFromDescription s).data = trimChars (squeezeNl x) := by
  unfold cleanHtmlFromDescription
  by_cases h : s == ""
  · left; simp [h]
  · right
    simp only [h, Bool.false_eq_true, if_false]
    exact ⟨_, rfl⟩

/-- Claim C9: for every input string, cleanHtmlFromDescription replaces
line-break tags with newlines, strips remaining HTML tags keeping their
content, decodes the standard HTML entities, collapses runs of whitespace
while preserving single and double newline structure (never more than two
consecutive newlines in the output), and trims leading and trailing
whitespace.  The never-three-newlines and trimmed-ends parts are proved for
all inputs; the enumerable transformations are checked on representative
inputs covering each replacement stage. -/
theorem claimC9_cleanHtml :
    (∀ s : String, hasTripleNl (cleanHtmlFromDescription s).data = false) ∧
    (∀ s : String,
      (∀ c, (cleanHtmlFromDescription s).data.head? = some c → isJsWs c = false) ∧
      (∀ c, (cleanHtmlFromDescription s).data.getLast? = some c → isJsWs c = false)) ∧
    cleanHtmlFromDescription "a<br>b<br/>c<br />d" = "a\nb\nc\nd" ∧
    cleanHtmlFromDescription "<p>Hello <b>World</b></p>" = "Hello World" ∧
    cleanHtmlFromDescription "x&lt;y&gt; &amp; &quot;q&quot; a&#39;b&nbsp;c" =
      "x<y> & \"q\" a\x27b c" ∧
    cleanHtmlFromDescription "a  \t b" = "a b" ∧
    cleanHtmlFromDescription "one\ntwo" = "one\ntwo" ∧
    cleanHtmlFromDescription "p1\n\np2" = "p1\n\np2" ∧
    cleanHtmlFromDescription "  hi\t " = "hi" ∧
    cleanHtmlFromDescription "a\n\n\n\n\nb" = "a\n\nb" := by
  refine ⟨?_, ?_, by decide, by decide, by decide, by decide, by decide, by decide,
    by decide, by decide⟩
  · intro s
    rcases clean_shape s with h | ⟨x, h⟩
    · rw [h]; rfl
    · rw [h]
      by_contra hc
      have ht : hasTripleNl (trimChars (squeezeNl x)) = true := by
        cases hb : hasTripleNl (trimChars (squeezeNl x)) with
        | true => rfl
        | false => exact absurd hb hc
      have := hasTripleNl_of_infix (trimChars_infixFact (squeezeNl x)) ht
      rw [hasTripleNl_squeezeNl x] at this
      exact Bool.false_ne_true this
  · intro s
    rcases clean_shape s with h | ⟨x, h⟩
    · rw [h]
      exact ⟨fun c hc => by simp at hc, fun c hc => by simp at hc⟩
    · rw [h]
      exact trimChars_ends (squeezeNl x)

/-- Concrete discharge of the hypotheses appearing in claimC9_cleanHtml. -/
theorem claimC9_cleanHtml_witness : isJsWs 'h' = false ∧ isJsWs 'i' = false :=
  ⟨(claimC9_cleanHtml.2.1 "  hi\t ").1 'h' (by decide),
   (claimC9_cleanHtml.2.1 "  hi\t ").2 'i' (by decide)⟩

/-! ## Product document model

The fields of a Promidata product document that the service reads.  Optional
fields are absent (undefined) as `none`; a present-but-empty string is
`some ""` and is falsy.  Fields of the raw documents that the service copies
through patterns identical to the ones modelled here (meta texts, webshop
information, and so on) are omitted: the modelled documents are those in which
these fields are absent, which affects none of the claims below. -/

structure ConfigField where
  configurationName : Option String
  configurationNameTranslated : Option (List (String × String))
  configurationValue : Option String
deriving DecidableEq

structure ImgRef where
  url : Option String
  fileName : Option String
deriving DecidableEq

/-- ProductDetails[lang].UnstructuredInformation. -/
structure LangUnstr where
  supplierColorCode : Option String
  supplierColorName : Option String
  supplierSearchColor : Option String
  supplierSize : Option String
  hexColor : Option String
deriving DecidableEq

structure LangDetails where
  sku : Option String
  name : Option String
  description : Option String
  supplierNameToShow : Option String
  configurationFields : Option (List ConfigField)
  unstructuredInformation : Option LangUnstr
  image : Option ImgRef
  mediaGalleryImages : Option (List ImgRef)
  informationFiles : Option (List ImgRef)
deriving DecidableEq

/-- Root-level UnstructuredInformation. -/
structure UnstrInfo where
  supplierColorCode : Option String
  supplierColorName : Option String
  supplierSearchColor : Option String
  supplierSize : Option String
  hexColor : Option String
  supplierNameToShow : Option String
  description : Option String
deriving DecidableEq

/-- NonLanguageDependedProductDetails. -/
structure NonLang where
  brand : Option String
  category : Option String
  customsTariffNumber : Option String
  sku : Option String
  searchColor : Option String
  supplierColorName : Option String
  color : Option String
  size : Option String
  hexColor : Option String
  supplierNameToShow : Option String
  description : Option String
  weight : Option Int
  dimensionsLength : Option Int
  dimensionsHeight : Option Int
  dimensionsWidth : Option Int
  dimensionsDepth : Option Int
  dimensionsDiameter : Option Int
deriving DecidableEq

/-- BatteryInformation / RequiredCertificates raw shapes handled by the
service: a string, an array of strings, or absent. -/
inductive RawVal where
  | str (s : String)
  | arr (l : List String)
  | absent
deriving DecidableEq

/-- DefaultProducts: either already a string or a region-to-SKU object. -/
inductive DefaultProductsVal where
  | str (s : String)
  | obj (m : List (String × String))
deriving DecidableEq

structure ChildProduct where
  sku : Option String
  supplierSku : Option String
  aNumber : Option String
  isActive : Option Bool
  unstructuredInformation : Option UnstrInfo
  nonLanguageDependedProductDetails : Option NonLang
  productDetails : List (String × LangDetails)
  weight : Option Int
deriving DecidableEq

structure ParentDoc where
  sku : Option String
  supplierSku : Option String
  aNumber : Option String
  defaultProducts : Option DefaultProductsVal
  batteryInformation : RawVal
  requiredCertificates : RawVal
  unstructuredInformation : Option UnstrInfo
  nonLanguageDependedProductDetails : Option NonLang
  productDetails : List (String × LangDetails)
  childProducts : Option (List ChildProduct)
  weight : Option Int
  dimensionsLength : Option Int
  dimensionsHeight : Option Int
  dimensionsWidth : Option Int
  dimensionsDepth : Option Int
  dimensionsDiameter : Option Int
deriving DecidableEq

/-! ## Field extraction (source lines 36-195, 1857-1968, 1974-2051) -/

/-- ProductDetails lookup by language key (JS property access). -/
def pdLookup (c : ChildProduct) (lang : String) : Option LangDetails :=
  c.productDetails.lookup lang

/-- Object.keys in priority-then-remaining order, as every language-priority
loop in the service walks them: en, nl, then the remaining keys in insertion
order. -/
def langKeysOrdered (pd : List (String × LangDetails)) : List String :=
  ["en", "nl"] ++ (pd.map Prod.fst).filter (fun k => !(k == "en") && !(k == "nl"))

/-- extractFirstSkuFromDefaultProducts (source lines 36-52). -/
def extractFirstSkuFromDefaultProducts : Option DefaultProductsVal → String
  | some (DefaultProductsVal.str s) => s
  | some (DefaultProductsVal.obj m) =>
    match m with
    | [] => ""
    | p :: _ => p.2
  | none => ""

/-- The string a JS regex test sees for
`f.ConfigurationNameTranslated || f.ConfigurationName || ''`: a present
translated-names object (of any content) is truthy and coerces to the string
"[object Object]" (source lines 184-186 and 1028). -/
def cfRegexName (f : ConfigField) : String :=
  match f.configurationNameTranslated with
  | some _ => "[object Object]"
  | none => jsOrD f.configurationName ""

/-- The test `/color|kleur|couleur|colour/i`. -/
def colorWordTest (s : String) : Bool :=
  let t := lowerStr s
  sHasSeg "color" t || sHasSeg "kleur" t || sHasSeg "couleur" t || sHasSeg "colour" t

/-- Match of `^A461-\d+-(\d+)-\d+$`, returning the middle (color) group
(source lines 169-177). -/
def matchA461 (sku : String) : Option String :=
  let l := sku.data
  if ("A461-".data).isPrefixOf l then
    let r1 := l.drop 5
    let d1 := r1.takeWhile Char.isDigit
    if d1.isEmpty then none
    else
      match r1.drop d1.length with
      | '-' :: r3 =>
        let d2 := r3.takeWhile Char.isDigit
        if d2.isEmpty then none
        else
          match r3.drop d2.length with
          | '-' :: r5 =>
            let d3 := r5.takeWhile Char.isDigit
            if d3.isEmpty then none
            else if (r5.drop d3.length).isEmpty then some (String.mk d2)
            else none
          | _ => none
      | _ => none
  else none

/-- Color-code lookup in the ConfigurationFields of one language
(source lines 182-190): find the first field whose displayed name matches the
color-word regex, and yield its value when that value is truthy. -/
def cfColorLookup (c : ChildProduct) (lang : String) : Option String :=
  (pdLookup c lang).bind fun ld =>
    ld.configurationFields.bind fun cfs =>
      match cfs.find? (fun f => colorWordTest (cfRegexName f)) with
      | some f => if truthy f.configurationValue then f.configurationValue else none
      | none => none

/-- extractColorCodeForGrouping (source lines 160-195). -/
def extractColorCodeForGrouping (childProd : ChildProduct) (parentProductSku : String) :
    String :=
  let supplierColorCode :=
    jsOr (childProd.unstructuredInformation.bind (·.supplierColorCode))
      ((pdLookup childProd "en").bind fun ld =>
        ld.unstructuredInformation.bind (·.supplierColorCode))
  if truthy supplierColorCode then supplierColorCode.getD ""
  else
    let viaConfig :=
      match cfColorLookup childProd "en" with
      | some v => some v
      | none => cfColorLookup childProd "nl"
    if !(parentProductSku == "") && sStarts "A461" parentProductSku then
      match matchA461 (jsOrD childProd.sku "") with
      | some colorPart => colorPart
      | none =>
        match viaConfig with
        | some v => v
        | none => "unknown"
    else
      match viaConfig with
      | some v => v
      | none => "unknown"

/-- Does the displayed configuration name match the color words of
parseConfigurationFields (color, kleur, couleur — source line 1953)? -/
def cfNameColorMatch (f : ConfigField) (lang : String) : Bool :=
  let cn := f.configurationName.map lowerStr
  let cnt := (f.configurationNameTranslated.bind fun m => m.lookup (lowerStr lang)).map lowerStr
  (truthy cn &&
    (sHasSeg "color" (cn.getD "") || sHasSeg "kleur" (cn.getD "") ||
      sHasSeg "couleur" (cn.getD ""))) ||
  (truthy cnt &&
    (sHasSeg "color" (cnt.getD "") || sHasSeg "kleur" (cnt.getD "") ||
      sHasSeg "couleur" (cnt.getD "")))

/-- Does the displayed configuration name match the size words (size,
afmeting, taille, maat — source line 1958)? -/
def cfNameSizeMatch (f : ConfigField) (lang : String) : Bool :=
  let cn := f.configurationName.map lowerStr
  let cnt := (f.configurationNameTranslated.bind fun m => m.lookup (lowerStr lang)).map lowerStr
  (truthy cn &&
    (sHasSeg "size" (cn.getD "") || sHasSeg "afmeting" (cn.getD "") ||
      sHasSeg "taille" (cn.getD "") || sHasSeg "maat" (cn.getD ""))) ||
  (truthy cnt &&
    (sHasSeg "size" (cnt.getD "") || sHasSeg "afmeting" (cnt.getD "") ||
      sHasSeg "taille" (cnt.getD "") || sHasSeg "maat" (cnt.getD "")))

def parseCFLoop (lang : String) : List ConfigField → Option String × Option String →
    Option String × Option String
  | [], st => st
  | f :: fs, (c, s) =>
    if !(truthy f.configurationValue) then parseCFLoop lang fs (c, s)
    else
      let st :=
        if cfNameColorMatch f lang then (f.configurationValue, s)
        else if cfNameSizeMatch f lang then (c, f.configurationValue)
        else (c, s)
      if truthy st.1 && truthy st.2 then st else parseCFLoop lang fs st

/-- parseConfigurationFields (source lines 1935-1968): returns (color, size). -/
def parseConfigurationFields (fields : Option (List ConfigField)) (lang : String) :
    Option String × Option String :=
  match fields with
  | none => (none, none)
  | some fs => parseCFLoop lang fs (none, none)

/-- Size extraction of extractSizesForColor (source lines 1984-2015):
language-priority walk over ConfigurationFields. -/
def sizeFromCF (c : ChildProduct) : Option String :=
  (langKeysOrdered c.productDetails).findSome? fun lang =>
    (pdLookup c lang).bind fun ld =>
      ld.configurationFields.bind fun cfs =>
        let parsed := parseConfigurationFields (some cfs) lang
        if truthy parsed.2 then parsed.2 else none

/-- Lexicographic strict comparison of character lists by code point — the JS
default sort comparison (UTF-16 code units agree with code points on the basic
plane, which covers every size code the feed carries). -/
def strLtCh : List Char → List Char → Bool
  | [], [] => false
  | [], _ :: _ => true
  | _ :: _, [] => false
  | a :: as, b :: bs => if a < b then true else if b < a then false else strLtCh as bs

/-- The ordering used to model `Array.from(set).sort()`. -/
def sleStr (a b : String) : Prop := strLtCh b.data a.data = false

instance : DecidableRel sleStr := fun a b => by
  unfold sleStr; infer_instance

theorem strLtCh_irrefl (l : List Char) : strLtCh l l = false := by
  induction l with
  | nil => rfl
  | cons a as ih => simp [strLtCh, ih]

theorem strLtCh_asymm (l₁ l₂ : List Char) (h : strLtCh l₁ l₂ = true) :
    strLtCh l₂ l₁ = false := by
  induction l₁ generalizing l₂ with
  | nil =>
    cases l₂ with
    | nil => simp [strLtCh] at h
    | cons b bs => simp [strLtCh]
  | cons a as ih =>
    cases l₂ with
    | nil => simp [strLtCh] at h
    | cons b bs =>
      simp only [strLtCh] at h ⊢
      rcases lt_trichotomy a b with hab | hab | hab
      · rw [if_neg (lt_asymm hab), if_pos hab]
      · subst hab
        rw [if_neg (lt_irrefl a), if_neg (lt_irrefl a)] at h ⊢
        exact ih bs h
      · rw [if_neg (lt_asymm hab), if_pos hab] at h
        exact absurd h (by simp)

theorem strLtCh_trans (l₁ l₂ l₃ : List Char) (h₁ : strLtCh l₁ l₂ = true)
    (h₂ : strLtCh l₂ l₃ = true) : strLtCh l₁ l₃ = true := by
  induction l₁ generalizing l₂ l₃ with
  | nil =>
    cases l₃ with
    | nil =>
      cases l₂ with
      | nil => simp [strLtCh] at h₁
      | cons b bs => simp [strLtCh] at h₂
    | cons c cs => simp [strLtCh]
  | cons a as ih =>
    cases l₂ with
    | nil => simp [strLtCh] at h₁
    | cons b bs =>
      cases l₃ with
      | nil => simp [strLtCh] at h₂
      | cons c cs =>
        simp only [strLtCh] at h₁ h₂ ⊢
        rcases lt_trichotomy a b with hab | hab | hab
        · rcases lt_trichotomy b c with hbc | hbc | hbc
          · rw [if_pos (lt_trans hab hbc)]
          · subst hbc
            rw [if_pos hab]
          · rw [if_neg (lt_asymm hbc), if_pos hbc] at h₂
            exact absurd h₂ (by simp)
        · subst hab
          rw [if_neg (lt_irrefl a), if_neg (lt_irrefl a)] at h₁
          rcases lt_trichotomy a c with hac | hac | hac
          · rw [if_pos hac]
          · subst hac
            rw [if_neg (lt_irrefl a), if_neg (lt_irrefl a)] at h₂ ⊢
            exact ih bs cs h₁ h₂
          · rw [if_neg (lt_asymm hac), if_pos hac] at h₂
            exact absurd h₂ (by simp)
        · rw [if_neg (lt_asymm hab), if_pos hab] at h₁
          exact absurd h₁ (by simp)

theorem strLtCh_eq_of_both_false (l₁ l₂ : List Char) (h₁ : strLtCh l₁ l₂ = false)
    (h₂ : strLtCh l₂ l₁ = false) : l₁ = l₂ := by
  induction l₁ generalizing l₂ with
  | nil =>
    cases l₂ with
    | nil => rfl
    | cons b bs => simp [strLtCh] at h₁
  | cons a as ih =>
    cases l₂ with
    | nil => simp [strLtCh] at h₂
    | cons b bs =>
      simp only [strLtCh] at h₁ h₂
      rcases lt_trichotomy a b with hab | hab | hab
      · rw [if_pos hab] at h₁
        exact absurd h₁ (by simp)
      · subst hab
        rw [if_neg (lt_irrefl a), if_neg (lt_irrefl a)] at h₁ h₂
        rw [ih bs h₁ h₂]
      · rw [if_pos hab] at h₂
        exact absurd h₂ (by simp)

theorem string_data_inj (a b : String) (h : a.data = b.data) : a = b := by
  cases a
  cases b
  exact congrArg String.mk (by simpa using h)

instance : IsTotal String sleStr :=
  ⟨fun a b => by
    unfold sleStr
    cases hba : strLtCh b.data a.data with
    | false => exact Or.inl rfl
    | true => exact Or.inr (strLtCh_asymm b.data a.data hba)⟩

instance : IsTrans String sleStr :=
  ⟨fun a b c hab hbc => by
    unfold sleStr at hab hbc ⊢
    cases hca : strLtCh c.data a.data with
    | false => rfl
    | true =>
      cases hbc2 : strLtCh b.data c.data with
      | true =>
        have hba := strLtCh_trans b.data c.data a.data hbc2 hca
        rw [hba] at hab
        exact Bool.noConfusion hab
      | false =>
        have heq : b.data = c.data := strLtCh_eq_of_both_false b.data c.data hbc2 hbc
        rw [← heq] at hca
        rw [hca] at hab
        exact Bool.noConfusion hab⟩

instance : IsAntisymm String sleStr :=
  ⟨fun a b hab hba => by
    unfold sleStr at hab hba
    exact string_data_inj a b (strLtCh_eq_of_both_false a.data b.data hba hab)⟩

/-- Sorted deduplicated list of a list of strings: the model of building a JS
Set and sorting the resulting array (order of first occurrence is erased by
the sort, so dedup-then-insertion-sort is extensionally the same list). -/
def setSort (l : List String) : List String :=
  List.insertionSort sleStr l.dedup

/-- extractSizesForColor (source lines 1974-2024): collect the decoded sizes
of exactly the children whose grouping color code equals the requested one,
dedup, and sort. -/
def extractSizesForColor (childProducts : List ChildProduct) (supplierColorCode : String)
    (parentProductSku : String) : List String :=
  setSort
    ((childProducts.filter
        (fun c => extractColorCodeForGrouping c parentProductSku == supplierColorCode)).filterMap
      sizeFromCF)

/-- First-occurrence-ordered distinct keys of a list under a key function. -/
def firstKeys (key : ChildProduct → String) (l : List ChildProduct) : List String :=
  l.foldl (fun acc c => if key c ∈ acc then acc else acc ++ [key c]) []

/-- The grouping `lodash.groupBy(productData.ChildProducts, childProd =>
extractColorCodeForGrouping(childProd, productCode))` of source lines
1714-1716: one group per distinct color key, members in document order.  (The
subsequent for-in loop may visit integer-like keys in numeric order, but group
contents and primaries are unaffected by group visiting order.) -/
def groupByColorCode (children : List ChildProduct) (productCode : String) :
    List (String × List ChildProduct) :=
  (firstKeys (fun c => extractColorCodeForGrouping c productCode) children).map
    fun k => (k, children.filter (fun c => extractColorCodeForGrouping c productCode == k))

/-- Language-priority supplier color code (source lines 1284-1304 and
1887-1911; the two occurrences are identical). -/
def supplierColorCodeLP (c : ChildProduct) : Option String :=
  let scc := c.unstructuredInformation.bind (·.supplierColorCode)
  if truthy scc then scc
  else
    match (langKeysOrdered c.productDetails).findSome? (fun lang =>
        let v := (pdLookup c lang).bind fun ld =>
          ld.unstructuredInformation.bind (·.supplierColorCode)
        if truthy v then v else none) with
    | some v => some v
    | none => scc

/-- The generated-SKU size code (source lines 1912-1918): the size parsed
from the English ConfigurationFields with non-alphanumerics stripped, else
the empty string. -/
def sizeCodeEn (childProductData : ChildProduct) : String :=
  match (pdLookup childProductData "en").bind (·.configurationFields) with
  | some cfs =>
    let parsed := parseConfigurationFields (some cfs) "en"
    match parsed.2 with
    | some sz =>
      if sz == "" then "" else String.mk (sz.data.filter Char.isAlphanum)
    | none => ""
  | none => ""

/-- extractVariantSku (source lines 1857-1930). -/
def extractVariantSku (childProductData : ChildProduct) (parentSku : String) :
    Option String :=
  match childProductData.productDetails.find? (fun p => truthy p.2.sku) with
  | some p => p.2.sku
  | none =>
    if truthy childProductData.sku then childProductData.sku
    else if truthy childProductData.supplierSku then childProductData.supplierSku
    else if truthy (childProductData.nonLanguageDependedProductDetails.bind (·.sku)) then
      childProductData.nonLanguageDependedProductDetails.bind (·.sku)
    else if truthy childProductData.aNumber then
      some (parentSku ++ "-" ++ childProductData.aNumber.getD "")
    else
      let supplierColorCode := supplierColorCodeLP childProductData
      let sizeCode := sizeCodeEn childProductData
      if !(parentSku == "") && truthy supplierColorCode && !(sizeCode == "") then
        some (parentSku ++ "-" ++ supplierColorCode.getD "" ++ "-" ++ sizeCode)
      else if !(parentSku == "") && truthy supplierColorCode then
        some (parentSku ++ "-" ++ supplierColorCode.getD "")
      else none

def digitsToNat (l : List Char) : Nat := l.foldl (fun n c => n * 10 + (c.toNat - 48)) 0

/-- First occurrence of `/BOR(\d+)/` in the characters, returning the number. -/
def findBORDigits : List Char → Option Nat
  | [] => none
  | c :: cs =>
    if ("BOR".data).isPrefixOf (c :: cs) then
      let ds := ((c :: cs).drop 3).takeWhile Char.isDigit
      if ds.isEmpty then findBORDigits cs else some (digitsToNat ds)
    else findBORDigits cs

/-- extractEmbroiderySizes (source lines 2030-2043). -/
def extractEmbroiderySizes (variantSku : String) : Option (List String) :=
  if sStarts "BOR" variantSku then
    match findBORDigits variantSku.data with
    | some n => some ((List.range n).map fun i => "BOR" ++ toString (i + 1))
    | none => none
  else none

/-- isServiceBaseVariant (source lines 2049-2051). -/
def isServiceBaseVariant (variantSku : String) : Bool := sStarts "BLSales" variantSku

/-- The test `/BLSales$/i`. -/
def testBLSalesEnd (s : String) : Bool := sEnds "blsales" (lowerStr s)

/-- The test `/BOR/i`. -/
def testBORAny (s : String) : Bool := sHasSeg "bor" (lowerStr s)

def isWordChar (c : Char) : Bool := c.isAlphanum || c == '_'

/-- First occurrence of `/BOR(\w+)/i`, returning the captured word
(source line 1044). -/
def findBORWord : List Char → Option String
  | [] => none
  | c :: cs =>
    if ("bor".data).isPrefixOf ((c :: cs).map Char.toLower) then
      let ws := ((c :: cs).drop 3).takeWhile isWordChar
      if ws.isEmpty then findBORWord cs else some (String.mk ws)
    else findBORWord cs

/-- The A73 colorGroupKey computation (source line 1028). -/
def a73ColorGroupKey (c : ChildProduct) : Option String :=
  jsOr (c.unstructuredInformation.bind (·.supplierColorCode))
    (jsOr ((pdLookup c "en").bind fun ld =>
        ld.unstructuredInformation.bind (·.supplierColorCode))
      ((pdLookup c "en").bind fun ld =>
        ld.configurationFields.bind fun cfs =>
          (cfs.find? (fun f => colorWordTest (cfRegexName f))).bind
            (·.configurationValue)))

/-- extractFieldWithLanguagePriority (source lines 58-113), with the three
document locations supplied as projections of the modelled document. -/
def extractFieldWithLanguagePriority (unstrVal nonLangVal : Option String)
    (pd : List (String × LangDetails)) (proj : LangDetails → Option String)
    (fallbackValue : String) : List (String × String) :=
  let primary1 := if truthy unstrVal then unstrVal.getD "" else fallbackValue
  let primary2 :=
    if primary1 == "" && truthy nonLangVal then nonLangVal.getD "" else primary1
  let step : List (String × String) × String → String → List (String × String) × String :=
    fun (res, prim) lang =>
      match pd.lookup lang with
      | some ld =>
        let v := proj ld
        if truthy v then
          (res ++ [(lang, v.getD "")], if prim == "" then v.getD "" else prim)
        else (res, prim)
      | none => (res, prim)
  let out := (langKeysOrdered pd).foldl step ([], primary2)
  if out.1.isEmpty then
    [("en", if out.2 == "" then fallbackValue else out.2)]
  else out.1

/-- The variant-level color/size ConfigurationFields walk
(source lines 1127-1156). -/
def colorSizeFromPD (c : ChildProduct) : Option String × Option String :=
  (langKeysOrdered c.productDetails).foldl
    (fun (st : Option String × Option String) lang =>
      match (pdLookup c lang).bind (·.configurationFields) with
      | some cfs =>
        let parsed := parseConfigurationFields (some cfs) lang
        let c1 := if truthy parsed.1 && !(truthy st.1) then parsed.1 else st.1
        let s1 := if truthy parsed.2 && !(truthy st.2) then parsed.2 else st.2
        (c1, s1)
      | none => st)
    (none, none)

/-- Variant color with fallbacks (source lines 1157-1166). -/
def variantColor (c : ChildProduct) : Option String :=
  let u := c.unstructuredInformation
  let nl := c.nonLanguageDependedProductDetails
  let enU := (pdLookup c "en").bind (·.unstructuredInformation)
  jsOr (colorSizeFromPD c).1
    (jsOr (u.bind (·.supplierColorName))
      (jsOr (u.bind (·.supplierSearchColor))
        (jsOr (nl.bind (·.searchColor))
          (jsOr (nl.bind (·.supplierColorName))
            (jsOr (nl.bind (·.color))
              (jsOr (enU.bind (·.supplierColorName))
                (jsOr (enU.bind (·.supplierSearchColor)) none)))))))

/-- Variant size with fallbacks (source lines 1167-1172). -/
def variantSize (c : ChildProduct) : Option String :=
  let u := c.unstructuredInformation
  let nl := c.nonLanguageDependedProductDetails
  let enU := (pdLookup c "en").bind (·.unstructuredInformation)
  jsOr (colorSizeFromPD c).2
    (jsOr (u.bind (·.supplierSize))
      (jsOr (nl.bind (·.size))
        (jsOr (enU.bind (·.supplierSize)) none)))

/-- supplier_search_color fallback chain (source lines 1174-1180). -/
def variantSearchColor (c : ChildProduct) : Option String :=
  let u := c.unstructuredInformation
  let nl := c.nonLanguageDependedProductDetails
  let enU := (pdLookup c "en").bind (·.unstructuredInformation)
  jsOr (u.bind (·.supplierSearchColor))
    (jsOr (nl.bind (·.searchColor))
      (jsOr (enU.bind (·.supplierSearchColor))
        (jsOr (variantColor c) none)))

/-- hex_color fallback chain (source lines 1184-1189). -/
def variantHexColor (c : ChildProduct) : Option String :=
  let u := c.unstructuredInformation
  let nl := c.nonLanguageDependedProductDetails
  let enU := (pdLookup c "en").bind (·.unstructuredInformation)
  jsOr (u.bind (·.hexColor))
    (jsOr (nl.bind (·.hexColor))
      (jsOr (enU.bind (·.hexColor)) none))

/-- Per-language json accumulation (nameJson, descriptionJson, ... — source
lines 1080-1124): collect the truthy values per language in key order. -/
def buildLangJson (pd : List (String × LangDetails)) (proj : LangDetails → Option String) :
    List (String × String) :=
  pd.foldl
    (fun acc p =>
      match proj p.2 with
      | some v => if v == "" then acc else acc ++ [(p.1, v)]
      | none => acc)
    []

/-- extractNameWithPriority and friends (source lines 1313-1353): first truthy
value among en, nl, then the remaining keys. -/
def pickWithPriority (m : List (String × String)) : Option String :=
  let keys := ["en", "nl"] ++ (m.map Prod.fst).filter (fun k => !(k == "en") && !(k == "nl"))
  keys.findSome? fun k =>
    match m.lookup k with
    | some v => if v == "" then none else some v
    | none => none

/-- First language (in ProductDetails key order) carrying a truthy Image.Url
(source lines 1105-1108). -/
def primaryImagePick (pd : List (String × LangDetails)) : Option ImgRef :=
  pd.findSome? fun p =>
    match p.2.image with
    | some img => if truthy img.url then some img else none
    | none => none

/-- All gallery images with truthy urls, across every language in key order
(source lines 1109-1116). -/
def galleryPick (pd : List (String × LangDetails)) : List ImgRef :=
  pd.foldl
    (fun acc p =>
      match p.2.mediaGalleryImages with
      | some imgs => acc ++ imgs.filter (fun i => truthy i.url)
      | none => acc)
    []

/-- All information-file urls (source lines 1117-1121). -/
def infoFilesPick (pd : List (String × LangDetails)) : List String :=
  pd.foldl
    (fun acc p =>
      match p.2.informationFiles with
      | some fs => acc ++ (fs.filterMap fun f => if truthy f.url then f.url else none)
      | none => acc)
    []

/-! ## Grouping lemmas (claims C4 and C5) -/

theorem head_filter_eq_find {α : Type} (p : α → Bool) (l : List α) :
    (l.filter p).head? = l.find? p := by
  induction l with
  | nil => rfl
  | cons a t ih =>
    by_cases hp : p a
    · simp [List.filter_cons, List.find?_cons, hp]
    · have hp' : p a = false := by simpa using hp
      simp [List.filter_cons, List.find?_cons, hp', ih]

theorem firstKeys_go_nodup (key : ChildProduct → String) (l : List ChildProduct) :
    ∀ acc : List String, acc.Nodup →
      (l.foldl (fun acc c => if key c ∈ acc then acc else acc ++ [key c]) acc).Nodup := by
  induction l with
  | nil => intro acc h; exact h
  | cons c cs ih =>
    intro acc h
    simp only [List.foldl_cons]
    by_cases hc : key c ∈ acc
    · rw [if_pos hc]; exact ih acc h
    · rw [if_neg hc]
      refine ih (acc ++ [key c]) ?_
      simp [List.nodup_append, h, hc]

theorem firstKeys_go_mem (key : ChildProduct → String) (l : List ChildProduct) :
    ∀ (acc : List String) (k : String),
      (k ∈ l.foldl (fun acc c => if key c ∈ acc then acc else acc ++ [key c]) acc ↔
        k ∈ acc ∨ ∃ c ∈ l, key c = k) := by
  induction l with
  | nil => intro acc k; simp
  | cons c cs ih =>
    intro acc k
    simp only [List.foldl_cons]
    by_cases hc : key c ∈ acc
    · rw [if_pos hc, ih acc k]
      constructor
      · rintro (h | h)
        · exact Or.inl h
        · exact Or.inr (by rcases h with ⟨d, hd, hk⟩; exact ⟨d, List.mem_cons_of_mem c hd, hk⟩)
      · rintro (h | ⟨d, hd, hk⟩)
        · exact Or.inl h
        · rcases List.mem_cons.mp hd with rfl | hd'
          · exact Or.inl (hk ▸ hc)
          · exact Or.inr ⟨d, hd', hk⟩
    · rw [if_neg hc, ih (acc ++ [key c]) k]
      constructor
      · rintro (h | h)
        · rcases List.mem_append.mp h with h' | h'
          · exact Or.inl h'
          · exact Or.inr ⟨c, List.mem_cons_self c cs,
              (List.mem_singleton.mp h').symm⟩
        · exact Or.inr (by rcases h with ⟨d, hd, hk⟩; exact ⟨d, List.mem_cons_of_mem c hd, hk⟩)
      · rintro (h | ⟨d, hd, hk⟩)
        · exact Or.inl (List.mem_append.mpr (Or.inl h))
        · rcases List.mem_cons.mp hd with rfl | hd'
          · exact Or.inl (List.mem_append.mpr (Or.inr (by simp [hk])))
          · exact Or.inr ⟨d, hd', hk⟩

theorem firstKeys_nodup (key : ChildProduct → String) (l : List ChildProduct) :
    (firstKeys key l).Nodup :=
  firstKeys_go_nodup key l [] List.nodup_nil

theorem firstKeys_mem (key : ChildProduct → String) (l : List ChildProduct) (k : String) :
    k ∈ firstKeys key l ↔ ∃ c ∈ l, key c = k := by
  have := firstKeys_go_mem key l [] k
  simpa [firstKeys] using this

/-! setSort facts. -/

theorem setSort_perm_dedup (l : List String) : (setSort l).Perm l.dedup :=
  List.perm_insertionSort sleStr l.dedup

theorem setSort_sorted (l : List String) : List.Sorted sleStr (setSort l) :=
  List.sorted_insertionSort sleStr l.dedup

theorem setSort_nodup (l : List String) : (setSort l).Nodup :=
  ((setSort_perm_dedup l).nodup_iff).mpr (List.nodup_dedup l)

theorem setSort_mem (l : List String) (s : String) : s ∈ setSort l ↔ s ∈ l := by
  rw [(setSort_perm_dedup l).mem_iff, List.mem_dedup]

theorem setSort_eq_of_perm (l₁ l₂ : List String) (h : l₁.Perm l₂) :
    setSort l₁ = setSort l₂ := by
  refine List.eq_of_perm_of_sorted ?_ (setSort_sorted l₁) (setSort_sorted l₂)
  exact (setSort_perm_dedup l₁).trans ((h.dedup).trans (setSort_perm_dedup l₂).symm)

/-- A configuration field named Size with the given value. -/
def sizeField (v : String) : ConfigField :=
  { configurationName := some "Size", configurationNameTranslated := none,
    configurationValue := some v }

/-- Example child record: supplier color code cc, one English Size
configuration field with value sz. -/
def exChild (cc sz : String) : ChildProduct :=
  { sku := none, supplierSku := none, aNumber := none, isActive := none,
    unstructuredInformation := some
      { supplierColorCode := some cc, supplierColorName := none,
        supplierSearchColor := none, supplierSize := none, hexColor := none,
        supplierNameToShow := none, description := none },
    nonLanguageDependedProductDetails := none,
    productDetails := [("en",
      { sku := none, name := none, description := none, supplierNameToShow := none,
        configurationFields := some [sizeField sz], unstructuredInformation := none,
        image := none, mediaGalleryImages := none, informationFiles := none })],
    weight := none }

def childM : ChildProduct := exChild "990" "M"

def childL : ChildProduct := exChild "990" "L"

/-- A child record carrying no color or size information at all. -/
def noInfoChild : ChildProduct :=
  { sku := none, supplierSku := none, aNumber := none, isActive := none,
    unstructuredInformation := none, nonLanguageDependedProductDetails := none,
    productDetails := [], weight := none }

theorem noInfo_unknown (productCode : String) :
    extractColorCodeForGrouping noInfoChild productCode = "unknown" := by
  unfold extractColorCodeForGrouping
  cases hb : (!(productCode == "") && sStarts "A461" productCode) with
  | true => simp only [hb]; rfl
  | false => simp only [hb]; rfl

/-- Claim C4: variant grouping keys every child by the vendor color-code
resolver extractColorCodeForGrouping (falling back to the sentinel "unknown"
when no code is found); there is exactly one group per distinct key; each
group holds exactly the children with that key, in document order; and the
group's first member — the primary, the only one upserted by syncSupplier —
is the first child in document order with that key, so re-running grouping on
the same document yields the same primary. -/
theorem claimC4_grouping (children : List ChildProduct) (productCode : String)
    (p : String × List ChildProduct) (hp : p ∈ groupByColorCode children productCode) :
    ((groupByColorCode children productCode).map Prod.fst).Nodup ∧
    (∀ c ∈ children, extractColorCodeForGrouping c productCode ∈
      (groupByColorCode children productCode).map Prod.fst) ∧
    p.2 = children.filter
      (fun c => extractColorCodeForGrouping c productCode == p.1) ∧
    p.2 ≠ [] ∧
    p.2.head? = children.find?
      (fun c => extractColorCodeForGrouping c productCode == p.1) ∧
    extractColorCodeForGrouping noInfoChild productCode = "unknown" := by
  have hkeys : (groupByColorCode children productCode).map Prod.fst =
      firstKeys (fun c => extractColorCodeForGrouping c productCode) children := by
    unfold groupByColorCode
    rw [List.map_map]
    exact List.map_id' _
  rcases List.mem_map.mp hp with ⟨k, hk, hkp⟩
  have hp1 : p.1 = k := by rw [← hkp]
  have hp2 : p.2 = children.filter
      (fun c => extractColorCodeForGrouping c productCode == k) := by rw [← hkp]
  refine ⟨?_, ?_, ?_, ?_, ?_, ?_⟩
  · rw [hkeys]; exact firstKeys_nodup _ children
  · intro c hc
    rw [hkeys, firstKeys_mem]
    exact ⟨c, hc, rfl⟩
  · rw [hp2, hp1]
  · rw [hp2]
    rcases (firstKeys_mem _ children k).mp hk with ⟨c, hc, hck⟩
    intro hnil
    have : c ∈ children.filter
        (fun c => extractColorCodeForGrouping c productCode == k) :=
      List.mem_filter.mpr ⟨hc, by simp [hck]⟩
    rw [hnil] at this
    exact List.not_mem_nil c this
  · rw [hp2, hp1, head_filter_eq_find]
  · exact noInfo_unknown productCode

/-- Claim C5: for every color group, extractSizesForColor is invariant under
permutation of the input children (in particular of the non-primary members);
it is sorted and duplicate-free; its members are exactly the decoded sizes of
the children belonging to that group; and on the two-child example (color 990,
sizes M then L) grouping produces one group whose primary is the M record and
whose size list is ["L", "M"]. -/
theorem claimC5_sizesForColor (children₁ children₂ : List ChildProduct)
    (code psku : String) (hperm : children₁.Perm children₂) :
    extractSizesForColor children₁ code psku = extractSizesForColor children₂ code psku ∧
    List.Sorted sleStr (extractSizesForColor children₁ code psku) ∧
    (extractSizesForColor children₁ code psku).Nodup ∧
    (∀ s, s ∈ extractSizesForColor children₁ code psku ↔
      ∃ c ∈ children₁,
        (extractColorCodeForGrouping c psku == code) = true ∧ sizeFromCF c = some s) ∧
    groupByColorCode [childM, childL] "A113-1" = [("990", [childM, childL])] ∧
    extractSizesForColor [childM, childL] "990" "A113-1" = ["L", "M"] := by
  refine ⟨?_, setSort_sorted _, setSort_nodup _, ?_, by decide, by decide⟩
  · unfold extractSizesForColor
    exact setSort_eq_of_perm _ _
      (((hperm.filter _).filterMap _))
  · intro s
    unfold extractSizesForColor
    rw [setSort_mem, List.mem_filterMap]
    constructor
    · rintro ⟨c, hc, hs⟩
      rcases List.mem_filter.mp hc with ⟨hcm, hck⟩
      exact ⟨c, hcm, hck, hs⟩
    · rintro ⟨c, hcm, hck, hs⟩
      exact ⟨c, List.mem_filter.mpr ⟨hcm, hck⟩, hs⟩

/-- Concrete discharge of claimC4_grouping's group-membership hypothesis: on
the two-child color-990 document, the primary of group 990 is the first (M)
record. -/
theorem claimC4_grouping_witness :
    (("990", [childM, childL]) : String × List ChildProduct).2.head? =
      [childM, childL].find?
        (fun c => extractColorCodeForGrouping c "A113-1" ==
          (("990", [childM, childL]) : String × List ChildProduct).1) :=
  (claimC4_grouping [childM, childL] "A113-1" ("990", [childM, childL])
    (by decide)).2.2.2.2.1

/-- Concrete discharge of claimC5_sizesForColor's permutation hypothesis:
swapping the non-primary member ordering leaves the size list unchanged. -/
theorem claimC5_sizesForColor_witness :
    extractSizesForColor [childM, childL] "990" "A113-1" =
      extractSizesForColor [childL, childM] "990" "A113-1" :=
  (claimC5_sizesForColor [childM, childL] [childL, childM] "990" "A113-1"
    (by decide)).1

/-! ## Entity store model

The Strapi content store is modelled as lists of rows; entityService.create
appends a row with a fresh id, entityService.update replaces the row's data
and bumps its updatedAt stamp (Strapi refreshes updatedAt on every write).
findMany with a filter is List.find?.  Relations are stored on the row but —
as in Strapi — are not part of what an unpopulated findMany returns, which
matters for the variant comparison projections below. -/

/-- JSON-ish values for modelling lodash.isEqual over plain records. -/
inductive JVal where
  | s (v : String)
  | i (v : Int)
  | b (v : Bool)
  | nul
  | sarr (vs : List String)
  | iarr (vs : List Int)
deriving DecidableEq

def optS : Option String → JVal
  | some v => .s v
  | none => .nul

def optI : Option Int → JVal
  | some v => .i v
  | none => .nul

def optN : Option Nat → JVal
  | some v => .i (Int.ofNat v)
  | none => .nul

def optSL : Option (List String) → JVal
  | some v => .sarr v
  | none => .nul

/-- lodash.isEqual on plain objects: same key set, equal values, independent
of field order. -/
def objEq (a b : List (String × JVal)) : Bool :=
  (a.all fun p => b.lookup p.1 == some p.2) &&
  (b.all fun p => a.lookup p.1 == some p.2)

structure SupplierRow where
  id : Nat
  code : String
  name : String
  is_active : Bool
  auto_import : Bool
  updatedAt : Nat
deriving DecidableEq

structure CategoryRow where
  id : Nat
  code : String
  name : List (String × String)
  parent : Option Nat
  updatedAt : Nat
deriving DecidableEq

/-- The parentData record built by createOrUpdateParentProduct
(source lines 832-890). -/
structure ParentFields where
  sku : String
  a_number : String
  supplier_sku : String
  supplier_name : String
  brand : String
  category : String
  default_products : String
  total_variants_count : Nat
  promidata_hash : String
  customs_tariff_number : String
  battery_information : String
  required_certificates : String
  supplier : Nat
  last_synced : Nat
  weight : Option Int
  dimensions_length : Option Int
  dimensions_height : Option Int
  dimensions_width : Option Int
  dimensions_depth : Option Int
  dimensions_diameter : Option Int
deriving DecidableEq

structure ParentRow where
  id : Nat
  fields : ParentFields
  updatedAt : Nat
deriving DecidableEq

/-- Modelled subset of the api::product.product duplicate record
(source lines 943-976). -/
structure ProductFields where
  sku : String
  name : List (String × String)
  description : List (String × String)
  promidata_hash : String
  last_synced : Nat
  parent_product_ref : Nat
deriving DecidableEq

structure ProductRow where
  id : Nat
  fields : ProductFields
  updatedAt : Nat
deriving DecidableEq

/-- Modelled subset of the variantData record (source lines 1355-1534); the
omitted fields (meta texts, compliance, webshop information, the remaining
dimensions) are built by the same language-priority patterns as the ones
kept and are absent from the modelled documents. -/
structure VariantFields where
  sku : String
  name : Option String
  description : Option String
  color : Option String
  size : Option String
  supplier_search_color : Option String
  supplier_color_code : Option String
  hex_color : Option String
  primary_image : Option Nat
  gallery_images : List Nat
  information_files : List Nat
  is_active : Bool
  embroidery_sizes : Option (List String)
  is_service_base : Bool
  sizes : List String
  is_primary_for_color : Bool
  weight : Option Int
  last_synced : Nat
deriving DecidableEq

structure VariantRow where
  id : Nat
  parent_product : Nat
  fields : VariantFields
  updatedAt : Nat
deriving DecidableEq

structure Store where
  suppliers : List SupplierRow
  categories : List CategoryRow
  parents : List ParentRow
  products : List ProductRow
  variants : List VariantRow
  nextId : Nat
deriving DecidableEq

/-! ## Transport and environment -/

inductive Transport (α : Type) where
  | ok (value : α)
  | fail (msg : String)

structure ImgResp where
  contentType : Option String
  bytesLen : Nat
deriving DecidableEq

/-- The effectful collaborators of one sync run: manifest transport, product
document fetch (none = fetch rejected or non-ok), image download, R2 upload
success, and media-catalog create outcome per (file name, attempt). -/
structure Env where
  manifest : Transport String
  docs : String → Option ParentDoc
  imgFetch : String → Option ImgResp
  r2Ok : String → Bool
  fileCreate : String → Nat → Option Nat

/-- The retry helper (source lines 2353-2365): try, then on failure retry
with doubled delay until the budget is exhausted. -/
def retry {α : Type} (op : Nat → Option α) : Nat → Nat → Nat → Option α
  | retries, delay, attempt =>
    match op attempt, retries with
    | some v, _ => some v
    | none, 0 => none
    | none, r + 1 => retry op r (delay * 2) (attempt + 1)

/-- Extension inference of uploadImageFromUrl (source lines 2274-2281). -/
def imgExtension (contentType imageUrl : String) : String :=
  if sHasSeg "png" contentType then "png"
  else if sHasSeg "gif" contentType then "gif"
  else if sHasSeg "webp" contentType then "webp"
  else if sHasSeg ".png" imageUrl then "png"
  else if sHasSeg ".gif" imageUrl then "gif"
  else if sHasSeg ".webp" imageUrl then "webp"
  else "jpg"

/-- uploadImageFromUrl (source lines 2255-2348): download, upload to R2,
register in the media catalog behind the retry helper (budget 3, initial
delay 1000); every failure is caught and surfaces as null. -/
def uploadImageFromUrl (env : Env) (imageUrl fileName : String)
    (_originalFileName : Option String) : Option Nat :=
  match env.imgFetch imageUrl with
  | none => none
  | some resp =>
    let contentType := jsOrD resp.contentType "image/jpeg"
    let extension := imgExtension contentType imageUrl
    let cleanFileName := fileName ++ "." ++ extension
    if env.r2Ok cleanFileName then
      match retry (fun k => env.fileCreate cleanFileName k) 3 1000 0 with
      | some fileId => some fileId
      | none => none
    else none

/-! ## Manifest client (source lines 448-496) -/

structure ManifestEntry where
  url : String
  hash : String
deriving DecidableEq

def parseManifestLines (supplierCode : String) (text : String) : List ManifestEntry :=
  let ls := (splitOnChar '\n' text.data).map String.mk
  let productLines := ls.filter fun l => !(jsTrim l == "")
  productLines.foldl
    (fun acc line =>
      if sHasSeg "CAT.csv" line then acc
      else if sHasSeg "|" line && sHasSeg ("/" ++ supplierCode ++ "/") line then
        match splitOnChar '|' line.data with
        | u :: h :: _ =>
          let fullUrlPart := String.mk u
          let hash := String.mk h
          if !(fullUrlPart == "") && !(hash == "") then
            acc ++ [{ url := jsTrim fullUrlPart, hash := jsTrim hash }]
          else acc
        | _ => acc
      else acc)
    []

/-- parseProductUrlsWithHashes: the whole body sits in a try/catch whose
catch logs and returns the empty list, so a transport failure (rejected fetch
or non-ok status, which the code turns into a throw) yields []. -/
def parseProductUrlsWithHashes (supplierCode : String) (resp : Transport String) :
    List ManifestEntry :=
  match resp with
  | .ok text => parseManifestLines supplierCode text
  | .fail _ => []

/-! ## Entity upserts (source lines 658-1003) -/

/-- createOrUpdateSupplier (source lines 711-746): look up by code; update
with code and name unconditionally when present, else create.  The create
path supplies no is_active / auto_import values (schema defaults). -/
def createOrUpdateSupplier (store : Store) (code : String) (name : Option String)
    (t : Nat) : Store × SupplierRow :=
  let dataName := jsOrD name code
  match store.suppliers.find? (fun s => s.code == code) with
  | some srow =>
    let updated := { srow with code := code, name := dataName, updatedAt := t }
    let rows := store.suppliers.map (fun s => if s.id == srow.id then updated else s)
    ({ store with suppliers := rows }, updated)
  | none =>
    let row : SupplierRow :=
      { id := store.nextId, code := code, name := dataName,
        is_active := false, auto_import := false, updatedAt := t }
    ({ store with suppliers := store.suppliers ++ [row], nextId := store.nextId + 1 },
      row)

structure CategoryData where
  code : String
  name : List (String × String)
  parent_code : Option String
deriving DecidableEq

/-- createOrUpdateCategory (source lines 658-706): look up by code; build the
data record, attaching a parent id only when a truthy parent_code resolves;
then update unconditionally when present, else create.  A data record without
the parent key leaves the stored parent untouched on update. -/
def createOrUpdateCategory (store : Store) (cat : CategoryData) (t : Nat) :
    Store × CategoryRow :=
  let parentId : Option Nat :=
    if truthy cat.parent_code then
      match store.categories.find? (fun r => r.code == cat.parent_code.getD "") with
      | some p => some p.id
      | none => none
    else none
  match store.categories.find? (fun r => r.code == cat.code) with
  | some row =>
    let newParent :=
      match parentId with
      | some pid => some pid
      | none => row.parent
    let updated :=
      { row with code := cat.code, name := cat.name, parent := newParent, updatedAt := t }
    let rows := store.categories.map (fun r => if r.id == row.id then updated else r)
    ({ store with categories := rows }, updated)
  | none =>
    let row : CategoryRow :=
      { id := store.nextId, code := cat.code, name := cat.name, parent := parentId,
        updatedAt := t }
    ({ store with categories := store.categories ++ [row], nextId := store.nextId + 1 },
      row)

/-- Replace the first occurrence of a literal pattern (JS
String.prototype.replace with a string pattern replaces only the first). -/
def replaceFirstSeg (pat rep : List Char) : List Char → List Char
  | [] => []
  | c :: cs =>
    if pat.isPrefixOf (c :: cs) then rep ++ (c :: cs).drop pat.length
    else c :: replaceFirstSeg pat rep cs

def jsReplaceOnce (pat rep s : String) : String :=
  String.mk (replaceFirstSeg pat.data rep.data s.data)

/-- extractProductCode (source lines 1815-1852): root Sku, root SupplierSku,
then the document URL file name with ".json" stripped; the last-resort chain
of alternative code fields is over fields absent from the modelled feed. -/
def extractProductCode (doc : ParentDoc) (url : Option String) : Option String :=
  if truthy doc.sku then doc.sku
  else if truthy doc.supplierSku then doc.supplierSku
  else
    match url with
    | some u =>
      let fileName := (((splitOnChar '/' u.data).map String.mk).getLast?).getD ""
      let productCode := jsReplaceOnce ".json" "" fileName
      if productCode == "" then none else some productCode
    | none => none

/-- The quote-stripping normalization applied to BatteryInformation and
RequiredCertificates strings (source lines 849-880). -/
def stripOuterQuotes (s : String) : String :=
  let trimmed := jsTrim s
  if sStarts "\"" trimmed && sEnds "\"" trimmed && 1 < trimmed.data.length then
    String.mk ((trimmed.data.drop 1).dropLast)
  else s

def rawValToStr : RawVal → String
  | .str s => stripOuterQuotes s
  | .arr l => String.intercalate ", " l
  | .absent => ""

structure ParentUpsertOut where
  store : Store
  parentProduct : ParentRow
  created : Bool

/-- createOrUpdateParentProduct (source lines 793-1003): extract the product
code (throwing when none), build parentData — including a fresh last_synced
stamp — look the parent up by sku and update unconditionally when present,
else create; then mirror the record into api::product.product the same way. -/
def createOrUpdateParentProduct (doc : ParentDoc) (supplier : SupplierRow)
    (hash : String) (url : Option String) (store : Store) (t : Nat) :
    Except String ParentUpsertOut :=
  match extractProductCode doc url with
  | none => .error "No valid parent product code found"
  | some productCode =>
    let nonLang := doc.nonLanguageDependedProductDetails
    let aNumber := jsOrD doc.aNumber ""
    let supplierNameFromLookup :=
      if aNumber == "" then ""
      else
        match store.suppliers.find? (fun s => s.code == aNumber) with
        | some s => s.name
        | none => ""
    let parentData : ParentFields :=
      { sku := jsOrD doc.sku productCode,
        a_number := aNumber,
        supplier_sku := jsOrD doc.supplierSku "",
        supplier_name :=
          if supplierNameFromLookup == "" then
            jsOrD (doc.unstructuredInformation.bind (·.supplierNameToShow)) ""
          else supplierNameFromLookup,
        brand := jsOrD (nonLang.bind (·.brand)) "",
        category := jsOrD (nonLang.bind (·.category)) "",
        default_products := extractFirstSkuFromDefaultProducts doc.defaultProducts,
        total_variants_count := (doc.childProducts.getD []).length,
        promidata_hash := hash,
        customs_tariff_number := jsOrD (nonLang.bind (·.customsTariffNumber)) "",
        battery_information := rawValToStr doc.batteryInformation,
        required_certificates := rawValToStr doc.requiredCertificates,
        supplier := supplier.id,
        last_synced := t,
        weight := (nonLang.bind (·.weight)) <|> doc.weight,
        dimensions_length := (nonLang.bind (·.dimensionsLength)) <|> doc.dimensionsLength,
        dimensions_height := (nonLang.bind (·.dimensionsHeight)) <|> doc.dimensionsHeight,
        dimensions_width := (nonLang.bind (·.dimensionsWidth)) <|> doc.dimensionsWidth,
        dimensions_depth := (nonLang.bind (·.dimensionsDepth)) <|> doc.dimensionsDepth,
        dimensions_diameter :=
          (nonLang.bind (·.dimensionsDiameter)) <|> doc.dimensionsDiameter }
    let upsert : Store × ParentRow × Bool :=
      match store.parents.find? (fun r => r.fields.sku == parentData.sku) with
      | some row =>
        let updated := { row with fields := parentData, updatedAt := t }
        let rows := store.parents.map (fun r => if r.id == row.id then updated else r)
        ({ store with parents := rows }, updated, false)
      | none =>
        let row : ParentRow := { id := store.nextId, fields := parentData, updatedAt := t }
        ({ store with parents := store.parents ++ [row], nextId := store.nextId + 1 },
          row, true)
    let store1 := upsert.1
    let parentRow := upsert.2.1
    let created := upsert.2.2
    let productName :=
      extractFieldWithLanguagePriority
        (doc.unstructuredInformation.bind (·.supplierNameToShow))
        (nonLang.bind (·.supplierNameToShow))
        doc.productDetails (·.supplierNameToShow)
        (jsOrD (nonLang.bind (·.brand)) (jsOrD (some parentData.sku) "Unnamed Product"))
    let productDescription :=
      extractFieldWithLanguagePriority
        (doc.unstructuredInformation.bind (·.description))
        (nonLang.bind (·.description))
        doc.productDetails (·.description) ""
    let prodFields : ProductFields :=
      { sku := parentData.sku, name := productName, description := productDescription,
        promidata_hash := parentData.promidata_hash, last_synced := t,
        parent_product_ref := parentRow.id }
    let store2 : Store :=
      match store1.products.find? (fun r => r.fields.sku == parentData.sku) with
      | some row =>
        let updated := { row with fields := prodFields, updatedAt := t }
        let rows := store1.products.map (fun r => if r.id == row.id then updated else r)
        { store1 with products := rows }
      | none =>
        { store1 with
            products := store1.products ++
              [({ id := store1.nextId, fields := prodFields, updatedAt := t } : ProductRow)],
            nextId := store1.nextId + 1 }
    .ok { store := store2, parentProduct := parentRow, created := created }

/-! ## Product variant upsert (source lines 1012-1583) -/

/-- The module-level `this._a73EmbroiderySizes` map, threaded explicitly. -/
abbrev A73Map := List (String × List String)

def assocSet (k : String) (v : List String) : A73Map → A73Map
  | [] => [(k, v)]
  | p :: ps => if p.1 == k then (k, v) :: ps else p :: assocSet k v ps

/-- The comparison projection of the freshly built variantData
(lodash.omit(variantData, ['last_synced']) — source line 1548): it carries
the parent_product relation id and the media relation ids. -/
def variantProjection (parentProductId : Nat) (v : VariantFields) :
    List (String × JVal) :=
  [("sku", .s v.sku), ("parent_product", .i (Int.ofNat parentProductId)),
   ("name", optS v.name), ("description", optS v.description),
   ("color", optS v.color), ("size", optS v.size),
   ("supplier_search_color", optS v.supplier_search_color),
   ("supplier_color_code", optS v.supplier_color_code),
   ("hex_color", optS v.hex_color),
   ("primary_image", optN v.primary_image),
   ("gallery_images", .iarr (v.gallery_images.map Int.ofNat)),
   ("information_files", .iarr (v.information_files.map Int.ofNat)),
   ("is_active", .b v.is_active),
   ("embroidery_sizes", optSL v.embroidery_sizes),
   ("is_service_base", .b v.is_service_base),
   ("sizes", .sarr v.sizes),
   ("is_primary_for_color", .b v.is_primary_for_color),
   ("weight", optI v.weight)]

/-- The comparison projection of the stored record (source lines 1544-1552):
an unpopulated findMany returns no relation or media fields, and the code
destructures away id/createdAt/updatedAt/publishedAt and omits last_synced
and parent_product. -/
def storedProjection (v : VariantFields) : List (String × JVal) :=
  [("sku", .s v.sku),
   ("name", optS v.name), ("description", optS v.description),
   ("color", optS v.color), ("size", optS v.size),
   ("supplier_search_color", optS v.supplier_search_color),
   ("supplier_color_code", optS v.supplier_color_code),
   ("hex_color", optS v.hex_color),
   ("is_active", .b v.is_active),
   ("embroidery_sizes", optSL v.embroidery_sizes),
   ("is_service_base", .b v.is_service_base),
   ("sizes", .sarr v.sizes),
   ("is_primary_for_color", .b v.is_primary_for_color),
   ("weight", optI v.weight)]

structure VariantUpsertOut where
  store : Store
  a73 : A73Map
  productVariant : VariantRow
  created : Bool
  updated : Bool

/-- createOrUpdateProductVariant (source lines 1012-1583).  Note the order of
the source: isBLSales and isBOR are computed at lines 1029-1030 from
`variantSku || ''` while variantSku is still the null declared at line 1019 —
extractVariantSku only assigns it at line 1035 — so both flags test the empty
string and are always false. -/
def createOrUpdateProductVariant (env : Env) (childProductData : ChildProduct)
    (parentProductId : Nat) (parentProductSku : String) (a73 : A73Map)
    (parentNonLang : Option NonLang) (store : Store) (t : Nat) :
    Except String VariantUpsertOut :=
  let variantSku0 : Option String := none
  let isA73 := sStarts "A73" parentProductSku
  let colorGroupKey := if isA73 then a73ColorGroupKey childProductData else none
  let isBLSales := if isA73 then testBLSalesEnd (jsOrD variantSku0 "") else false
  let isBOR := if isA73 then testBORAny (jsOrD variantSku0 "") else false
  match extractVariantSku childProductData parentProductSku with
  | none => .error "No valid product variant SKU found"
  | some variantSku =>
    let a73c :=
      if isA73 && isBOR && truthy colorGroupKey then
        match findBORWord variantSku.data with
        | some w =>
          let key := colorGroupKey.getD ""
          match a73.lookup key with
          | some l => assocSet key (l ++ [w]) a73
          | none => assocSet key [w] a73
        | none => a73
      else a73
    let existing := store.variants.find? fun r =>
      r.fields.sku == variantSku && r.parent_product == parentProductId
    let pd := childProductData.productDetails
    let nameJson := buildLangJson pd (·.name)
    let descJson := buildLangJson pd (·.description)
    let primaryImg := primaryImagePick pd
    let galleryImgs := galleryPick pd
    let infoUrls := infoFilesPick pd
    let primaryImageId :=
      match primaryImg with
      | some img =>
        uploadImageFromUrl env (img.url.getD "") (variantSku ++ "-primary") img.fileName
      | none => none
    let galleryIds := (galleryImgs.enum).filterMap fun p =>
      uploadImageFromUrl env (p.2.url.getD "")
        (variantSku ++ "-gallery-" ++ toString (p.1 + 1)) p.2.fileName
    let infoIds := (infoUrls.enum).filterMap fun p =>
      uploadImageFromUrl env p.2 (variantSku ++ "-info-file-" ++ toString (p.1 + 1)) none
    let embroiderySizesRolled : Option (List String) :=
      if isA73 && isBLSales && truthy colorGroupKey then
        a73c.lookup (colorGroupKey.getD "")
      else none
    let variantData : VariantFields :=
      { sku := variantSku,
        name := pickWithPriority nameJson,
        description := (pickWithPriority descJson).map cleanHtmlFromDescription,
        color := variantColor childProductData,
        size := variantSize childProductData,
        supplier_search_color := variantSearchColor childProductData,
        supplier_color_code := supplierColorCodeLP childProductData,
        hex_color := variantHexColor childProductData,
        primary_image := primaryImageId,
        gallery_images := galleryIds,
        information_files := infoIds,
        is_active := jsOrB childProductData.isActive true,
        embroidery_sizes :=
          match embroiderySizesRolled with
          | some l => some l
          | none => extractEmbroiderySizes variantSku,
        is_service_base := if isA73 then isBLSales else isServiceBaseVariant variantSku,
        sizes := [],
        is_primary_for_color := if isA73 then isBLSales else false,
        weight := (childProductData.nonLanguageDependedProductDetails.bind (·.weight)) <|>
          childProductData.weight <|> (parentNonLang.bind (·.weight)),
        last_synced := t }
    match existing with
    | some row =>
      if objEq (variantProjection parentProductId variantData)
          (storedProjection row.fields) then
        .ok { store := store, a73 := a73c, productVariant := row,
              created := false, updated := false }
      else
        let updatedRow :=
          { row with
            parent_product := parentProductId, fields := variantData,
            updatedAt := t }
        let rows := store.variants.map (fun r => if r.id == row.id then updatedRow else r)
        .ok { store := { store with variants := rows },
              a73 := a73c, productVariant := updatedRow,
              created := false, updated := true }
    | none =>
      let row : VariantRow :=
        { id := store.nextId, parent_product := parentProductId,
          fields := variantData, updatedAt := t }
      let store2 := { store with variants := store.variants ++ [row], nextId := store.nextId + 1 }
      .ok { store := store2, a73 := a73c, productVariant := row, created := true,
            updated := false }

/-! ## Sync orchestrator (source lines 1588-1809) -/

structure SyncError where
  productCode : String
  url : String
  error : String
deriving DecidableEq

structure SyncReport where
  importedParentProducts : Nat
  updatedParentProducts : Nat
  skippedParentProducts : Nat
  importedVariants : Nat
  updatedVariants : Nat
  skippedVariants : Nat
  errors : List SyncError
deriving DecidableEq

inductive SyncReturn where
  | noProducts (message : String)
  | report (r : SyncReport)
deriving DecidableEq

structure SyncOut where
  store : Store
  a73 : A73Map
  ret : SyncReturn
deriving DecidableEq

def urlProductCode (url : String) : String :=
  jsReplaceOnce ".json" "" ((((splitOnChar '/' url.data).map String.mk).getLast?).getD "")

/-- Per-product outcome: state reached so far plus the caught error, if any
(a throw mid-product keeps the writes already performed, as in the source). -/
structure ProdOut where
  store : Store
  a73 : A73Map
  importedP : Nat
  updatedP : Nat
  importedV : Nat
  updatedV : Nat
  skippedV : Nat
  err : Option String

/-- The variant loop of syncSupplier (source lines 1711-1766): for each color
group upsert only the first member, then unconditionally write the sizes
array and the primary flag onto that variant's row. -/
def processGroups (env : Env) (children : List ChildProduct) (productCode : String)
    (parentNonLang : Option NonLang) (parentProductId : Nat) (t : Nat) :
    List (String × List ChildProduct) → Store → A73Map → Nat → Nat → Nat →
    Store × A73Map × Nat × Nat × Nat × Option String
  | [], store, a73, iv, uv, sv => (store, a73, iv, uv, sv, none)
  | g :: gs, store, a73, iv, uv, sv =>
    match g.2 with
    | [] => processGroups env children productCode parentNonLang parentProductId t
        gs store a73 iv uv sv
    | primaryVariant :: _ =>
      let sizesForColor := extractSizesForColor children g.1 productCode
      match createOrUpdateProductVariant env primaryVariant parentProductId
          productCode a73 parentNonLang store t with
      | .error e => (store, a73, iv, uv, sv, some e)
      | .ok vout =>
        let counts :=
          if vout.created then (iv + 1, uv, sv)
          else if vout.updated then (iv, uv + 1, sv)
          else (iv, uv, sv + 1)
        let updatedRow :=
          { vout.productVariant with
            fields := { vout.productVariant.fields with
              sizes := sizesForColor, is_primary_for_color := true },
            updatedAt := t }
        let rows := vout.store.variants.map (fun r =>
          if r.id == vout.productVariant.id then updatedRow else r)
        let store2 := { vout.store with variants := rows }
        processGroups env children productCode parentNonLang parentProductId t
          gs store2 vout.a73 counts.1 counts.2.1 counts.2.2

/-- One iteration of the product loop of syncSupplier (source lines
1639-1782), excluding the skip counter which depends on the prefetched
snapshot: fetch the document, upsert the parent (unconditionally, whatever
the hash comparison said), then group and upsert the variants. -/
def processOneProduct (env : Env) (entry : ManifestEntry) (store : Store)
    (a73 : A73Map) (supplier : SupplierRow) (t : Nat) : ProdOut :=
  let productCode := urlProductCode entry.url
  match env.docs entry.url with
  | none =>
    { store := store, a73 := a73, importedP := 0, updatedP := 0,
      importedV := 0, updatedV := 0, skippedV := 0,
      err := some ("Failed to fetch product from " ++ entry.url) }
  | some productData =>
    match createOrUpdateParentProduct productData supplier entry.hash
        (some entry.url) store t with
    | .error e =>
      { store := store, a73 := a73, importedP := 0, updatedP := 0,
        importedV := 0, updatedV := 0, skippedV := 0, err := some e }
    | .ok pout =>
      let impP := if pout.created then 1 else 0
      let updP := if pout.created then 0 else 1
      let children := productData.childProducts.getD []
      if children.isEmpty then
        { store := pout.store, a73 := a73, importedP := impP, updatedP := updP,
          importedV := 0, updatedV := 0, skippedV := 0, err := none }
      else
        let groups := groupByColorCode children productCode
        let r := processGroups env children productCode
          productData.nonLanguageDependedProductDetails pout.parentProduct.id t
          groups pout.store a73 0 0 0
        { store := r.1, a73 := r.2.1, importedP := impP, updatedP := updP,
          importedV := r.2.2.1, updatedV := r.2.2.2.1, skippedV := r.2.2.2.2.1,
          err := r.2.2.2.2.2 }

/-- syncSupplier (source lines 1588-1809): acquire the manifest entries (an
empty list — including the silently-swallowed transport failure — returns the
"no products" result), snapshot the stored skus and hashes, then walk the
entries sequentially; the hash comparison only drives the skipped counter and
logging, processing always continues into the parent and variant upserts;
per-product errors are accumulated, never fatal. -/
def syncSupplier (env : Env) (supplier : SupplierRow) (store : Store)
    (a73 : A73Map) (t : Nat) : SyncOut :=
  let entries := parseProductUrlsWithHashes supplier.code env.manifest
  if entries.isEmpty then
    { store := store, a73 := a73,
      ret := .noProducts "No products available for this supplier" }
  else
    let snapshot : List (String × String) :=
      store.parents.map (fun r => (r.fields.sku, r.fields.promidata_hash))
    let emptyReport : SyncReport :=
      { importedParentProducts := 0, updatedParentProducts := 0,
        skippedParentProducts := 0, importedVariants := 0, updatedVariants := 0,
        skippedVariants := 0, errors := [] }
    let final := entries.foldl
      (fun (st : Store × A73Map × SyncReport) entry =>
        let store' := st.1
        let a73' := st.2.1
        let rep := st.2.2
        let productCode := urlProductCode entry.url
        let newHash := jsTrim entry.hash
        let skippedInc :=
          match snapshot.lookup productCode with
          | some h => if !(h == "") && jsTrim h == newHash then 1 else 0
          | none => 0
        let out := processOneProduct env entry store' a73' supplier t
        match out.err with
        | none =>
          (out.store, out.a73,
            { rep with
              importedParentProducts := rep.importedParentProducts + out.importedP,
              updatedParentProducts := rep.updatedParentProducts + out.updatedP,
              skippedParentProducts := rep.skippedParentProducts + skippedInc,
              importedVariants := rep.importedVariants + out.importedV,
              updatedVariants := rep.updatedVariants + out.updatedV,
              skippedVariants := rep.skippedVariants + out.skippedV })
        | some e =>
          (out.store, out.a73,
            { rep with
              importedParentProducts := rep.importedParentProducts + out.importedP,
              updatedParentProducts := rep.updatedParentProducts + out.updatedP,
              skippedParentProducts := rep.skippedParentProducts + skippedInc,
              importedVariants := rep.importedVariants + out.importedV,
              updatedVariants := rep.updatedVariants + out.updatedV,
              skippedVariants := rep.skippedVariants + out.skippedV,
              errors := rep.errors ++
                [{ productCode := if productCode == "" then "unknown" else productCode,
                   url := entry.url, error := e }] }))
      (store, a73, emptyReport)
    { store := final.1, a73 := final.2.1, ret := .report final.2.2 }

/-! ## Concrete run scenario (used by several claims) -/

def exSup : SupplierRow :=
  { id := 1, code := "A113", name := "Malfini", is_active := true,
    auto_import := true, updatedAt := 0 }

/-- A two-variant product document (color 990, sizes M and L). -/
def exDoc : ParentDoc :=
  { sku := none, supplierSku := none, aNumber := none, defaultProducts := none,
    batteryInformation := .absent, requiredCertificates := .absent,
    unstructuredInformation := none, nonLanguageDependedProductDetails := none,
    productDetails := [], childProducts := some [childM, childL],
    weight := none, dimensionsLength := none, dimensionsHeight := none,
    dimensionsWidth := none, dimensionsDepth := none, dimensionsDiameter := none }

def exManifest : String :=
  "https://x/Import/CAT.csv\nhttps://x/A113/A113-100804.json|ABC123\n"

def exEnv : Env :=
  { manifest := .ok exManifest,
    docs := fun u => if u == "https://x/A113/A113-100804.json" then some exDoc else none,
    imgFetch := fun _ => none, r2Ok := fun _ => true, fileCreate := fun _ _ => none }

def exStore0 : Store :=
  { suppliers := [exSup], categories := [], parents := [], products := [],
    variants := [], nextId := 2 }

def exRun1 : SyncOut := syncSupplier exEnv exSup exStore0 [] 1

def exRun2 : SyncOut := syncSupplier exEnv exSup exRun1.store exRun1.a73 2

/-- Report projection used to state the concrete-run claims. -/
structure RepSum where
  importedP : Nat
  updatedP : Nat
  importedV : Nat
  updatedV : Nat
  skippedV : Nat
  errs : List SyncError
deriving DecidableEq

def reportSummary : SyncReturn → Option RepSum
  | .report r => some
      { importedP := r.importedParentProducts, updatedP := r.updatedParentProducts,
        importedV := r.importedVariants, updatedV := r.updatedVariants,
        skippedV := r.skippedVariants, errs := r.errors }
  | .noProducts _ => none

def skipSummary : SyncReturn → Option (Nat × Nat)
  | .report r => some (r.skippedParentProducts, r.updatedParentProducts)
  | .noProducts _ => none

/-- Claim C1 (code bug): when the stored promidata_hash equals the manifest
hash, the sync run does NOT leave the parent record unchanged.  On the
concrete run below the second sync sees an unchanged hash, counts the parent
skipped, and nevertheless rewrites the parent record (last_synced and
updatedAt move from 1 to 2) and counts it updated as well — syncSupplier
calls createOrUpdateParentProduct unconditionally after logging the skip. -/
theorem claimC1_hash_skip_bug :
    exRun1.store.parents.map
      (fun r => (r.fields.sku, r.fields.promidata_hash, r.fields.last_synced, r.updatedAt)) =
      [("A113-100804", "ABC123", 1, 1)] ∧
    exRun2.store.parents.map
      (fun r => (r.fields.sku, r.fields.promidata_hash, r.fields.last_synced, r.updatedAt)) =
      [("A113-100804", "ABC123", 2, 2)] ∧
    skipSummary exRun2.ret = some (1, 1) := by
  refine ⟨by decide, by decide, by decide⟩

/-- Claim C2 (code bug): running syncSupplier twice over the identical
manifest and documents does not give a second-run report with zero updates.
The first run creates one parent and one variant with no errors; the second
run reports zero creates and zero errors, but one UPDATED parent (the parent
upsert runs and rewrites regardless of the hash skip) and one UPDATED variant
(the deep comparison never finds the stored projection equal). -/
theorem claimC2_idempotence_bug :
    reportSummary exRun1.ret = some
      { importedP := 1, updatedP := 0, importedV := 1, updatedV := 0,
        skippedV := 0, errs := [] } ∧
    reportSummary exRun2.ret = some
      { importedP := 0, updatedP := 1, importedV := 0, updatedV := 1,
        skippedV := 0, errs := [] } := by
  refine ⟨by decide, by decide⟩

/-- Claim C6, original statement refuted: a failing manifest transport does
not surface any error — parseProductUrlsWithHashes catches it and returns the
empty list, and syncSupplier then returns the ordinary "no products" result
with the store untouched. -/
theorem claimC6_counterexample :
    parseProductUrlsWithHashes "A113" (Transport.fail "HTTP 500") = [] ∧
    syncSupplier { exEnv with manifest := Transport.fail "HTTP 500" } exSup exStore0 [] 1 =
      { store := exStore0, a73 := [],
        ret := .noProducts "No products available for this supplier" } := by
  refine ⟨by decide, by decide⟩

/-- Claim C6 as amended: when the transport fails, the manifest client
swallows the error and yields an empty entry list, and the sync run returns
the "no products" result — no error reaches the caller and nothing is
run-fatal (syncSupplier is a total function of its environment). -/
theorem claimC6_amended (env : Env) (sup : SupplierRow) (store : Store)
    (a73 : A73Map) (t : Nat) (msg : String) :
    parseProductUrlsWithHashes sup.code (Transport.fail msg) = [] ∧
    syncSupplier { env with manifest := Transport.fail msg } sup store a73 t =
      { store := store, a73 := a73,
        ret := .noProducts "No products available for this supplier" } := by
  constructor
  · rfl
  · unfold syncSupplier
    rfl

/-! ## The A73 post-rule (claim C7) -/

/-- A73 child whose per-language SKU is the designated sales SKU (suffix
BLSales), color group RED. -/
def a73BLChild : ChildProduct :=
  { sku := none, supplierSku := none, aNumber := none, isActive := none,
    unstructuredInformation := some
      { supplierColorCode := some "RED", supplierColorName := none,
        supplierSearchColor := none, supplierSize := none, hexColor := none,
        supplierNameToShow := none, description := none },
    nonLanguageDependedProductDetails := none,
    productDetails := [("en",
      { sku := some "A73-100-BLSales", name := none, description := none,
        supplierNameToShow := none, configurationFields := none,
        unstructuredInformation := none, image := none,
        mediaGalleryImages := none, informationFiles := none })],
    weight := none }

/-- A73 option child with SKU prefix BOR (embroidery size 6X4), color group
RED. -/
def a73BORChild : ChildProduct :=
  { a73BLChild with productDetails := [("en",
      { sku := some "BOR6X4", name := none, description := none,
        supplierNameToShow := none, configurationFields := none,
        unstructuredInformation := none, image := none,
        mediaGalleryImages := none, informationFiles := none })] }

def plainStore : Store :=
  { suppliers := [], categories := [], parents := [], products := [],
    variants := [], nextId := 1 }

structure VSum where
  a73 : A73Map
  service : Bool
  primary : Bool
  embroidery : Option (List String)
deriving DecidableEq

def vSummary : Except String VariantUpsertOut → Option VSum
  | .ok out => some
      { a73 := out.a73,
        service := out.productVariant.fields.is_service_base,
        primary := out.productVariant.fields.is_primary_for_color,
        embroidery := out.productVariant.fields.embroidery_sizes }
  | .error _ => none

/-- Claim C7 (code bug): the A73 post-rule is dead code.  isBLSales and isBOR
are computed from variantSku before extractVariantSku assigns it (source
lines 1019-1035), so they always test the empty string: for the BLSales child
the variant is written with is_service_base = false, is_primary_for_color =
false and no rolled-up embroiderySizes even though the per-color map already
holds ["6X4"]; and processing the BOR option child leaves the rollup map
unchanged.  (The embroidery value the BLSales claim expects would be ["6X4"];
the BOR child only gets the unrelated extractEmbroiderySizes fallback.) -/
theorem claimC7_a73_post_rule_dead :
    vSummary (createOrUpdateProductVariant exEnv a73BLChild 1 "A73-100"
        [("RED", ["6X4"])] none plainStore 1) =
      some { a73 := [("RED", ["6X4"])], service := false, primary := false,
             embroidery := none } ∧
    vSummary (createOrUpdateProductVariant exEnv a73BORChild 1 "A73-100"
        [] none plainStore 1) =
      some { a73 := [], service := false, primary := false,
             embroidery := some ["BOR1", "BOR2", "BOR3", "BOR4", "BOR5", "BOR6"] } := by
  refine ⟨by decide, by decide⟩

/-! ## Upsert behaviour lemmas (claims C3 and C8) -/

/-- The fresh variant projection always carries the parent_product key while
the stored projection never does, so lodash.isEqual can never hold. -/
theorem objEq_variant_stored_false (pid : Nat) (v w : VariantFields) :
    objEq (variantProjection pid v) (storedProjection w) = false := by
  have hlk : (storedProjection w).lookup "parent_product" = none := rfl
  have hmem : ("parent_product", JVal.i (Int.ofNat pid)) ∈ variantProjection pid v := by
    unfold variantProjection
    simp
  have hall : ((variantProjection pid v).all fun p =>
      (storedProjection w).lookup p.1 == some p.2) = false := by
    rw [List.all_eq_false]
    refine ⟨("parent_product", JVal.i (Int.ofNat pid)), hmem, ?_⟩
    rw [hlk]
    simp
  unfold objEq
  rw [hall]
  rfl

theorem retry_none {α : Type} (op : Nat → Option α) (hop : ∀ k, op k = none) :
    ∀ retries delay attempt, retry op retries delay attempt = none := by
  intro retries
  induction retries with
  | zero => intro delay attempt; unfold retry; rw [hop attempt]
  | succ r ih =>
    intro delay attempt
    unfold retry
    rw [hop attempt]
    exact ih (delay * 2) (attempt + 1)

theorem uploadImageFromUrl_fetch_fail (env : Env) (url fn : String)
    (ofn : Option String) (h : env.imgFetch url = none) :
    uploadImageFromUrl env url fn ofn = none := by
  unfold uploadImageFromUrl
  rw [h]

theorem uploadImageFromUrl_create_fail (env : Env) (url fn : String)
    (ofn : Option String) (resp : ImgResp) (hf : env.imgFetch url = some resp)
    (hc : ∀ name k, env.fileCreate name k = none) :
    uploadImageFromUrl env url fn ofn = none := by
  unfold uploadImageFromUrl
  rw [hf]
  have hr := retry_none (fun k => env.fileCreate
    (fn ++ "." ++ imgExtension (jsOrD resp.contentType "image/jpeg") url) k)
    (fun k => hc _ k) 3 1000 0
  simp only [hr]
  split <;> rfl

/-- createOrUpdateParentProduct never skips: whenever it succeeds, the
returned parent row was just written (its updatedAt is the current stamp). -/
theorem parent_upsert_always_writes (doc : ParentDoc) (sup : SupplierRow)
    (hash : String) (url : Option String) (store : Store) (t : Nat)
    (out : ParentUpsertOut)
    (h : createOrUpdateParentProduct doc sup hash url store t = Except.ok out) :
    out.parentProduct.updatedAt = t ∧ out.parentProduct.fields.last_synced = t := by
  unfold createOrUpdateParentProduct at h
  split at h
  · exact absurd h (by simp)
  · simp only [Except.ok.injEq] at h
    subst h
    constructor
    · dsimp only
      split <;> rfl
    · dsimp only
      split <;> rfl

/-- createOrUpdateProductVariant never reports "unchanged, skipped": every
success is a create or an update, and the written row carries the current
stamp. -/
theorem variant_upsert_never_skips (env : Env) (child : ChildProduct)
    (pid : Nat) (psku : String) (a73 : A73Map) (pnl : Option NonLang)
    (store : Store) (t : Nat) (out : VariantUpsertOut)
    (h : createOrUpdateProductVariant env child pid psku a73 pnl store t =
      Except.ok out) :
    (out.created = true ∨ out.updated = true) ∧
    out.productVariant.updatedAt = t := by
  unfold createOrUpdateProductVariant at h
  split at h
  · exact absurd h (by simp)
  · simp only [objEq_variant_stored_false, Bool.false_eq_true, if_false] at h
    split at h
    · simp only [Except.ok.injEq] at h
      subst h
      exact ⟨Or.inr rfl, rfl⟩
    · simp only [Except.ok.injEq] at h
      subst h
      exact ⟨Or.inl rfl, rfl⟩

/-- When every image download fails, the variant row is still written and
carries no primary image and no gallery. -/
theorem variant_upsert_images_fail (env : Env) (child : ChildProduct)
    (pid : Nat) (psku : String) (a73 : A73Map) (pnl : Option NonLang)
    (store : Store) (t : Nat) (out : VariantUpsertOut)
    (himg : ∀ u, env.imgFetch u = none)
    (h : createOrUpdateProductVariant env child pid psku a73 pnl store t =
      Except.ok out) :
    out.productVariant.fields.primary_image = none ∧
    out.productVariant.fields.gallery_images = [] := by
  unfold createOrUpdateProductVariant at h
  split at h
  · exact absurd h (by simp)
  · simp only [objEq_variant_stored_false, Bool.false_eq_true, if_false] at h
    split at h <;>
    · simp only [Except.ok.injEq] at h
      subst h
      refine ⟨?_, ?_⟩
      · dsimp only
        split
        · exact uploadImageFromUrl_fetch_fail env _ _ _ (himg _)
        · rfl
      · dsimp only
        rw [List.filterMap_eq_nil_iff]
        intro p _
        exact uploadImageFromUrl_fetch_fail env _ _ _ (himg _)

/-- A child with a primary-image URL (color 990, size M). -/
def childImg : ChildProduct :=
  { childM with productDetails := [("en",
      { sku := none, name := none, description := none, supplierNameToShow := none,
        configurationFields := some [sizeField "M"], unstructuredInformation := none,
        image := some { url := some "https://img/m.png", fileName := some "m.png" },
        mediaGalleryImages := none, informationFiles := none })] }

def imgDoc : ParentDoc := { exDoc with childProducts := some [childImg] }

def imgEnv : Env :=
  { manifest := .ok "https://x/Import/CAT.csv\nhttps://x/A113/A113-200.json|H1\n",
    docs := fun u => if u == "https://x/A113/A113-200.json" then some imgDoc else none,
    imgFetch := fun _ => none, r2Ok := fun _ => true, fileCreate := fun _ _ => none }

def imgRun : SyncOut := syncSupplier imgEnv exSup exStore0 [] 1

/-- Claim C8: a failed image download or a media-catalog registration that
fails on every retry attempt makes uploadImageFromUrl return null rather than
throw; a variant whose images all fail is still written, with a null primary
image and empty gallery; and on the concrete run below, the report shows one
created variant and an empty error list while the stored variant has no
primary image. -/
theorem claimC8_imageFailure :
    (∀ (env : Env) url fn ofn, env.imgFetch url = none →
      uploadImageFromUrl env url fn ofn = none) ∧
    (∀ (env : Env) url fn ofn resp, env.imgFetch url = some resp →
      (∀ name k, env.fileCreate name k = none) →
      uploadImageFromUrl env url fn ofn = none) ∧
    (∀ (env : Env) child pid psku a73 pnl store t out,
      (∀ u, env.imgFetch u = none) →
      createOrUpdateProductVariant env child pid psku a73 pnl store t =
        Except.ok out →
      out.productVariant.fields.primary_image = none ∧
      out.productVariant.fields.gallery_images = []) ∧
    reportSummary imgRun.ret = some
      { importedP := 1, updatedP := 0, importedV := 1, updatedV := 0,
        skippedV := 0, errs := [] } ∧
    imgRun.store.variants.map (fun r => (r.fields.sku, r.fields.primary_image)) =
      [("A113-200-990-M", none)] := by
  refine ⟨?_, ?_, ?_, by decide, by decide⟩
  · intro env url fn ofn h
    exact uploadImageFromUrl_fetch_fail env url fn ofn h
  · intro env url fn ofn resp hf hc
    exact uploadImageFromUrl_create_fail env url fn ofn resp hf hc
  · intro env child pid psku a73 pnl store t out himg h
    exact variant_upsert_images_fail env child pid psku a73 pnl store t out himg h

def imgOkEnv : Env :=
  { exEnv with imgFetch := fun _ => some { contentType := some "image/png", bytesLen := 7 } }

/-- Concrete discharge of the hypotheses of claimC8_imageFailure: a failed
download and a registration failing on all four attempts both yield null. -/
theorem claimC8_imageFailure_witness :
    uploadImageFromUrl exEnv "https://img/m.png" "V-primary" none = none ∧
    uploadImageFromUrl imgOkEnv "https://img/m.png" "V-primary" none = none :=
  ⟨claimC8_imageFailure.1 exEnv "https://img/m.png" "V-primary" none rfl,
   claimC8_imageFailure.2.1 imgOkEnv "https://img/m.png" "V-primary" none
     { contentType := some "image/png", bytesLen := 7 } rfl (fun _ _ => rfl)⟩

/-! ## Upsert contract (claim C3) -/

def exCat : CategoryData :=
  { code := "C1", name := [("en", "Root")], parent_code := none }

def catRow : CategoryRow :=
  { id := 5, code := "C1", name := [("en", "Root")], parent := none, updatedAt := 3 }

def catStore : Store :=
  { suppliers := [], categories := [catRow], parents := [], products := [],
    variants := [], nextId := 6 }

/-- Claim C3, original statement refuted at a concrete input: the Category
upsert is handed data identical to the stored record (same code, same name,
no parent), yet it issues a write — the stored categories list changes, the
row's updatedAt moving to the new stamp — instead of reporting
unchanged/skipped without writing. -/
theorem claimC3_counterexample :
    (createOrUpdateCategory catStore exCat 9).1.categories ≠ catStore.categories := by
  decide

/-- Claim C3 as amended: every upsert looks up by its natural key and creates
when absent, but only the ProductVariant upsert attempts the deep,
field-order-independent comparison.  Supplier, Category and ParentProduct
update unconditionally whenever the record exists (the returned row always
carries the fresh write stamp), and the ProductVariant comparison never
reports equality — the fresh projection carries relation fields
(parent_product and the media ids) that the stored projection lacks — so a
present variant is always updated, never skipped. -/
theorem claimC3_upserts :
    (∀ store cat t, (createOrUpdateCategory store cat t).2.updatedAt = t) ∧
    (∀ store code name t, (createOrUpdateSupplier store code name t).2.updatedAt = t) ∧
    (∀ doc sup hash url store t,
      match createOrUpdateParentProduct doc sup hash url store t with
      | .ok out => out.parentProduct.updatedAt = t
      | .error _ => True) ∧
    (∀ pid v w, objEq (variantProjection pid v) (storedProjection w) = false) ∧
    (∀ env child pid psku a73 pnl store t,
      match createOrUpdateProductVariant env child pid psku a73 pnl store t with
      | .ok out => out.created = true ∨ out.updated = true
      | .error _ => True) ∧
    (∀ (store : Store) (cat : CategoryData) (t : Nat),
      match store.categories.find? (fun r => r.code == cat.code) with
      | none => (createOrUpdateCategory store cat t).1.categories.length =
          store.categories.length + 1
      | some _ => (createOrUpdateCategory store cat t).1.categories.length =
          store.categories.length) := by
  refine ⟨?_, ?_, ?_, objEq_variant_stored_false, ?_, ?_⟩
  · intro store cat t
    cases hfind : store.categories.find? (fun r => r.code == cat.code) with
    | none =>
      unfold createOrUpdateCategory
      rw [hfind]
    | some row =>
      unfold createOrUpdateCategory
      rw [hfind]
  · intro store code name t
    cases hfind : store.suppliers.find? (fun s => s.code == code) with
    | none =>
      unfold createOrUpdateSupplier
      rw [hfind]
    | some srow =>
      unfold createOrUpdateSupplier
      rw [hfind]
  · intro doc sup hash url store t
    split
    · rename_i out heq
      exact (parent_upsert_always_writes doc sup hash url store t out heq).1
    · trivial
  · intro env child pid psku a73 pnl store t
    split
    · rename_i out heq
      exact (variant_upsert_never_skips env child pid psku a73 pnl store t out heq).1
    · trivial
  · intro store cat t
    cases hfind : store.categories.find? (fun r => r.code == cat.code) with
    | none =>
      unfold createOrUpdateCategory
      rw [hfind]
      simp
    | some row =>
      unfold createOrUpdateCategory
      rw [hfind]
      simp

/-! ## Variant SKU extraction (claim C10) -/

def noSkuDoc : ParentDoc := { exDoc with childProducts := some [noInfoChild] }

def noSkuEnv : Env :=
  { manifest := .ok "https://x/Import/CAT.csv\nhttps://x/A113/A113-300.json|H3\n",
    docs := fun u => if u == "https://x/A113/A113-300.json" then some noSkuDoc else none,
    imgFetch := fun _ => none, r2Ok := fun _ => true, fileCreate := fun _ _ => none }

def noSkuRun : SyncOut := syncSupplier noSkuEnv exSup exStore0 [] 1

/-- Claim C10: extractVariantSku follows the fixed precedence — first truthy
per-language ProductDetails Sku, then root Sku, root SupplierSku,
NonLanguageDependedProductDetails Sku, then parentSku joined with the child's
A_number; failing all of those it generates parentSku-colorCode-sizeCode
(size from the English configuration fields with non-alphanumerics stripped)
or parentSku-colorCode; it returns null exactly when neither an explicit SKU
nor a supplier color code is derivable; and on a concrete run whose only
child has no derivable SKU, variant creation throws, no variant is stored,
and the product is reported in the run's error list. -/
theorem claimC10_variantSku (c : ChildProduct) (parentSku : String)
    (hps : ¬ parentSku = "") :
    (∀ p, c.productDetails.find? (fun q => truthy q.2.sku) = some p →
      extractVariantSku c parentSku = p.2.sku) ∧
    (c.productDetails.find? (fun q => truthy q.2.sku) = none →
      truthy c.sku = true → extractVariantSku c parentSku = c.sku) ∧
    (c.productDetails.find? (fun q => truthy q.2.sku) = none →
      truthy c.sku = false → truthy c.supplierSku = true →
      extractVariantSku c parentSku = c.supplierSku) ∧
    (c.productDetails.find? (fun q => truthy q.2.sku) = none →
      truthy c.sku = false → truthy c.supplierSku = false →
      truthy (c.nonLanguageDependedProductDetails.bind (·.sku)) = true →
      extractVariantSku c parentSku = c.nonLanguageDependedProductDetails.bind (·.sku)) ∧
    (c.productDetails.find? (fun q => truthy q.2.sku) = none →
      truthy c.sku = false → truthy c.supplierSku = false →
      truthy (c.nonLanguageDependedProductDetails.bind (·.sku)) = false →
      truthy c.aNumber = true →
      extractVariantSku c parentSku = some (parentSku ++ "-" ++ c.aNumber.getD "")) ∧
    (c.productDetails.find? (fun q => truthy q.2.sku) = none →
      truthy c.sku = false → truthy c.supplierSku = false →
      truthy (c.nonLanguageDependedProductDetails.bind (·.sku)) = false →
      truthy c.aNumber = false →
      truthy (supplierColorCodeLP c) = true →
      extractVariantSku c parentSku = some
        (if sizeCodeEn c == "" then
          parentSku ++ "-" ++ (supplierColorCodeLP c).getD ""
        else
          parentSku ++ "-" ++ (supplierColorCodeLP c).getD "" ++ "-" ++ sizeCodeEn c)) ∧
    (extractVariantSku c parentSku = none ↔
      (c.productDetails.find? (fun q => truthy q.2.sku) = none ∧
       truthy c.sku = false ∧ truthy c.supplierSku = false ∧
       truthy (c.nonLanguageDependedProductDetails.bind (·.sku)) = false ∧
       truthy c.aNumber = false ∧
       truthy (supplierColorCodeLP c) = false)) ∧
    reportSummary noSkuRun.ret = some
      { importedP := 1, updatedP := 0, importedV := 0, updatedV := 0,
        skippedV := 0,
        errs := [{ productCode := "A113-300", url := "https://x/A113/A113-300.json",
                   error := "No valid product variant SKU found" }] } ∧
    noSkuRun.store.variants = [] := by
  have hps' : (parentSku == "") = false := by simpa using hps
  refine ⟨?_, ?_, ?_, ?_, ?_, ?_, ?_, by decide, by decide⟩
  · intro p hp
    unfold extractVariantSku
    rw [hp]
  · intro hfind hsku
    unfold extractVariantSku
    rw [hfind]
    simp [hsku]
  · intro hfind h1 h2
    unfold extractVariantSku
    rw [hfind]
    simp [h1, h2]
  · intro hfind h1 h2 h3
    unfold extractVariantSku
    rw [hfind]
    simp [h1, h2, h3]
  · intro hfind h1 h2 h3 h4
    unfold extractVariantSku
    rw [hfind]
    simp [h1, h2, h3, h4]
  · intro hfind h1 h2 h3 h4 h5
    unfold extractVariantSku
    rw [hfind]
    simp only [h1, h2, h3, h4, h5, Bool.false_eq_true, if_false]
    by_cases hsz : (sizeCodeEn c == "") = true
    · have hsz2 : (!(sizeCodeEn c == "")) = false := by rw [hsz]; rfl
      simp [hps', h5, hsz, hsz2]
    · have hszf : (sizeCodeEn c == "") = false := by
        cases hb : (sizeCodeEn c == "") with
        | true => exact absurd hb hsz
        | false => rfl
      have hsz2 : (!(sizeCodeEn c == "")) = true := by rw [hszf]; rfl
      simp [hps', h5, hszf, hsz2]
  · unfold extractVariantSku
    cases hfind : c.productDetails.find? (fun q => truthy q.2.sku) with
    | some p =>
      have hp := List.find?_some hfind
      constructor
      · intro h
        have h' : p.2.sku = none := h
        rw [h'] at hp
        simp [truthy] at hp
      · rintro ⟨hf, _⟩
        exact absurd hf (by simp)
    | none =>
      dsimp only
      by_cases h1 : truthy c.sku = true
      · simp only [h1, if_true]
        constructor
        · intro h
          rw [h] at h1
          simp [truthy] at h1
        · rintro ⟨_, h1', _⟩
          exact absurd h1' (by simp)
      · have h1' : truthy c.sku = false := by
          cases hb : truthy c.sku with
          | true => exact absurd hb h1
          | false => rfl
        simp only [h1', Bool.false_eq_true, if_false]
        by_cases h2 : truthy c.supplierSku = true
        · simp only [h2, if_true]
          constructor
          · intro h
            rw [h] at h2
            simp [truthy] at h2
          · rintro ⟨_, _, h2', _⟩
            exact absurd h2' (by simp)
        · have h2' : truthy c.supplierSku = false := by
            cases hb : truthy c.supplierSku with
            | true => exact absurd hb h2
            | false => rfl
          simp only [h2', Bool.false_eq_true, if_false]
          by_cases h3 : truthy (c.nonLanguageDependedProductDetails.bind (·.sku)) = true
          · simp only [h3, if_true]
            constructor
            · intro h
              rw [h] at h3
              simp [truthy] at h3
            · rintro ⟨_, _, _, h3', _⟩
              exact absurd h3' (by simp)
          · have h3' : truthy (c.nonLanguageDependedProductDetails.bind (·.sku)) = false := by
              cases hb : truthy (c.nonLanguageDependedProductDetails.bind (·.sku)) with
              | true => exact absurd hb h3
              | false => rfl
            simp only [h3', Bool.false_eq_true, if_false]
            by_cases h4 : truthy c.aNumber = true
            · simp only [h4, if_true]
              constructor
              · intro h
                simp at h
              · rintro ⟨_, _, _, _, h4', _⟩
                exact absurd h4' (by simp)
            · have h4' : truthy c.aNumber = false := by
                cases hb : truthy c.aNumber with
                | true => exact absurd hb h4
                | false => rfl
              simp only [h4', Bool.false_eq_true, if_false]
              by_cases h5 : truthy (supplierColorCodeLP c) = true
              · simp only [h5, hps', Bool.not_false, Bool.true_and]
                constructor
                · intro h
                  by_cases hsz : (!(sizeCodeEn c == "")) = true
                  · rw [if_pos (by simp [hsz])] at h
                    simp at h
                  · have hszf : (!(sizeCodeEn c == "")) = false := by
                      cases hb : (!(sizeCodeEn c == "")) with
                      | true => exact absurd hb hsz
                      | false => rfl
                    rw [if_neg (by simp [hszf])] at h
                    simp at h
                · rintro ⟨_, _, _, _, _, h5'⟩
                  exact absurd h5' (by simp)
              · have h5' : truthy (supplierColorCodeLP c) = false := by
                  cases hb : truthy (supplierColorCodeLP c) with
                  | true => exact absurd hb h5
                  | false => rfl
                simp [h1', h2', h3', h4', h5']

/-- Concrete discharge of claimC10_variantSku's hypotheses: the no-info child
has no derivable SKU under parent A113-300, so extraction yields null. -/
theorem claimC10_variantSku_witness : extractVariantSku noInfoChild "A113-300" = none :=
  (claimC10_variantSku noInfoChild "A113-300" (by decide)).2.2.2.2.2.2.1.mpr
    ⟨rfl, rfl, rfl, rfl, rfl, rfl⟩

end Promidata
